import Mathlib

/-!
# QUIC Initial probe module (`src/probe_modules/module_quic_initial.c`)

A shallow embedding of the probe module's response validator
(`quic_initial_validate_packet`) and packet builder
(`quic_initial_make_packet`), followed by the properties established about them.

Conventions of the embedding:

* machine integers are natural numbers, truncated with an explicit `%` where the
  C code stores them into a narrower object;
* the host is little-endian (the byte-order helpers `htons`, `ntohs`, `ntohl`
  swap bytes), as on the x86 machines the scanner runs on;
* memory reachable from a `void *buf` is a function from byte offsets to bytes;
* the module's globals (`num_ports`, `connection_id`, `checker_bitmap`) are
  passed explicitly.
-/

namespace QuicInitial

/-! ## Constants of the system headers -/

/-- The protocol number `IPPROTO_UDP` of `netinet/in.h`. -/
def IPPROTO_UDP : Nat := 17

/-- The value of `sizeof(struct ether_header)`. -/
def sizeof_ether_header : Nat := 14

/-- The value of `sizeof(struct ip)`: an IPv4 header without options. -/
def sizeof_ip : Nat := 20

/-- The value of `sizeof(struct udphdr)`. -/
def sizeof_udphdr : Nat := 8

/-! ## Byte order helpers (little-endian host) -/

/-- The libc `htons` on a little-endian host: swap the two bytes of a `uint16_t`. -/
def htons (x : Nat) : Nat :=
  (x % 256) * 256 + x / 256 % 256

/-- The libc `ntohs` on a little-endian host: swap the two bytes of a `uint16_t`. -/
def ntohs (x : Nat) : Nat :=
  (x % 256) * 256 + x / 256 % 256

/-- The libc `ntohl` on a little-endian host: reverse the four bytes of a `uint32_t`. -/
def ntohl (x : Nat) : Nat :=
  (x % 256) * 16777216 + (x / 256 % 256) * 65536 + (x / 65536 % 256) * 256
    + x / 16777216 % 256

/-! ## The per-source dedup bitmap -/

/-- Modelled from the spec: the paged bitmap of `lib/pbm.h` (`pbm_init`, `pbm_check`,
`pbm_set`), which is not part of the sources at hand. The spec describes it as one bit
per possible IPv4 source address with the two capabilities `contains(addr)` and
`insert(addr)`. Bit `v` of the natural number is the bit of address `v`. -/
abbrev Bitmap := Nat

/-- Modelled from the spec: `pbm_init` of `lib/pbm.h`, the bitmap with every bit clear. -/
def pbm_init : Bitmap := 0

/-- Modelled from the spec: `pbm_check` of `lib/pbm.h`, the capability `contains(addr)`:
whether the bit of address `v` is set. -/
def pbm_check (b : Bitmap) (v : Nat) : Bool :=
  Nat.testBit b v

/-- Modelled from the spec: `pbm_set` of `lib/pbm.h`, the capability `insert(addr)`:
set the bit of address `v` and leave every other bit as it is. -/
def pbm_set (b : Bitmap) (v : Nat) : Bitmap :=
  b ||| 1 <<< v

/-! ## The response validator -/

/-- The fields of `struct ip` (`netinet/ip.h`) as the host reads them. `ip_src` and
`ip_dst` stand for `ip_src.s_addr` and `ip_dst.s_addr`. -/
structure ip where
  ip_hl : Nat
  ip_v : Nat
  ip_tos : Nat
  ip_len : Nat
  ip_id : Nat
  ip_off : Nat
  ip_ttl : Nat
  ip_p : Nat
  ip_sum : Nat
  ip_src : Nat
  ip_dst : Nat
deriving DecidableEq

/-- The function `quic_initial_validate_packet`. The result pairs the returned `int`
with the value of the global `checker_bitmap` after the call. The arguments `src_ip`
and `validation` are unused by the C function and omitted. `ip_hl` is a four-bit field,
so `4*ip_hl + sizeof(struct udphdr)` is at most 68 and never wraps. -/
def quic_initial_validate_packet (checker_bitmap : Bitmap) (ip_hdr : ip) (len : Nat) :
    Nat × Bitmap :=
  if ip_hdr.ip_p = IPPROTO_UDP then
    if 4 * ip_hdr.ip_hl + sizeof_udphdr > len then
      (0, checker_bitmap)
    else
      let already_checked := pbm_check checker_bitmap (ntohl ip_hdr.ip_src)
      if already_checked then
        (0, checker_bitmap)
      else
        (1, pbm_set checker_bitmap (ntohl ip_hdr.ip_src))
  else
    (0, checker_bitmap)

/-- One invocation of the validator by the receive loop: the IP header and the
captured length. -/
structure ValidateCall where
  ip_hdr : ip
  len : Nat
deriving DecidableEq

/-- The values returned by a sequence of `quic_initial_validate_packet` calls, in call
order, each call running on the bitmap its predecessors left. -/
def validate_results (checker_bitmap : Bitmap) : List ValidateCall → List Nat
  | [] => []
  | c :: cs =>
    (quic_initial_validate_packet checker_bitmap c.ip_hdr c.len).1 ::
      validate_results (quic_initial_validate_packet checker_bitmap c.ip_hdr c.len).2 cs

/-- The bitmap left by a sequence of `quic_initial_validate_packet` calls. -/
def validate_bitmap (checker_bitmap : Bitmap) : List ValidateCall → Bitmap
  | [] => checker_bitmap
  | c :: cs =>
    validate_bitmap (quic_initial_validate_packet checker_bitmap c.ip_hdr c.len).2 cs

/-! ## Frame buffers -/

/-- One byte of memory. -/
abbrev Byte := Fin 256

/-- The memory reachable from a `void *buf`: the byte at each offset from `buf`. -/
abbrev Buffer := Nat → Byte

/-- Truncation of an integer value to `uint8_t`. -/
def byte (v : Nat) : Byte := ⟨v % 256, Nat.mod_lt v (by decide)⟩

/-- Store of a `uint8_t` at offset `a`. -/
def store8 (b : Buffer) (a v : Nat) : Buffer :=
  fun j => if j = a then byte v else b j

/-- Store of a `uint16_t` at offset `a` on the little-endian host: low byte first. -/
def store16 (b : Buffer) (a v : Nat) : Buffer :=
  store8 (store8 b a v) (a + 1) (v / 256)

/-- Store of a `uint32_t` at offset `a` on the little-endian host. -/
def store32 (b : Buffer) (a v : Nat) : Buffer :=
  store16 (store16 b a v) (a + 2) (v / 65536)

/-- Store of a `uint64_t` at offset `a` on the little-endian host. -/
def store64 (b : Buffer) (a v : Nat) : Buffer :=
  store32 (store32 b a v) (a + 4) (v / 4294967296)

/-- Load of a `uint16_t` from offset `a` on the little-endian host. -/
def load16 (b : Buffer) (a : Nat) : Nat :=
  (b a).val + 256 * (b (a + 1)).val

/-- Load of a `uint32_t` from offset `a` on the little-endian host. -/
def load32 (b : Buffer) (a : Nat) : Nat :=
  load16 b a + 65536 * load16 b (a + 2)

/-- Load of a `uint64_t` from offset `a` on the little-endian host. -/
def load64 (b : Buffer) (a : Nat) : Nat :=
  load32 b a + 4294967296 * load32 b (a + 4)

/-- The 16-bit quantity that the two bytes at offset `a` denote on the wire
(network byte order: high byte first). -/
def wire16 (b : Buffer) (a : Nat) : Nat :=
  256 * (b a).val + (b (a + 1)).val

/-- The 32-bit quantity that the four bytes at offset `a` denote on the wire
(network byte order). -/
def wire32 (b : Buffer) (a : Nat) : Nat :=
  65536 * wire16 b a + wire16 b (a + 2)

/-- The libc `memset(buf + a, c, n)`. -/
def memset (b : Buffer) (a c n : Nat) : Buffer :=
  fun j => if a ≤ j ∧ j < a + n then byte c else b j

/-! ## The IP header checksum -/

/-- Modelled from the spec: the accumulation step of the Internet checksum, the plain sum
of the `n` 16-bit words starting at offset `a`, each read as the host reads an
`unsigned short`. -/
def sum_words (b : Buffer) (a : Nat) : Nat → Nat
  | 0 => 0
  | n + 1 => load16 b a + sum_words b (a + 2) n

/-- Modelled from the spec: the folding step of the Internet checksum (RFC 1071), which
adds the carries above bit 15 back into the low 16 bits, twice, and truncates to 16 bits. -/
def fold16 (sum : Nat) : Nat :=
  let sum := sum / 65536 + sum % 65536
  let sum := sum + sum / 65536
  sum % 65536

/-- Modelled from the spec: `zmap_ip_checksum` of `packet.h`, which is not part of the
sources at hand. It is the Internet checksum (RFC 1071) over the ten 16-bit words of
the IP header at offset `a`: the one's complement of their one's-complement sum. -/
def zmap_ip_checksum (b : Buffer) (a : Nat) : Nat :=
  65535 - fold16 (sum_words b a 10)

/-- One's-complement addition of two 16-bit words: addition with end-around carry. -/
def ones_add (x y : Nat) : Nat :=
  (x + y) % 65536 + (x + y) / 65536

/-- The one's-complement sum of the `n` 16-bit words starting at offset `a`, as a
receiver verifying the header accumulates it. -/
def ones_sum (b : Buffer) (a : Nat) : Nat → Nat
  | 0 => 0
  | n + 1 => ones_add (load16 b a) (ones_sum b (a + 2) n)

/-! ## Layout of the headers -/

/-- Offset of `ip_len` in `struct ip`. -/
def ip_len_offset : Nat := 2

/-- Offset of `ip_sum` in `struct ip`. -/
def ip_sum_offset : Nat := 10

/-- Offset of `ip_src` in `struct ip`. -/
def ip_src_offset : Nat := 12

/-- Offset of `ip_dst` in `struct ip`. -/
def ip_dst_offset : Nat := 16

/-- Offset of `uh_sport` in `struct udphdr`. -/
def uh_sport_offset : Nat := 0

/-- Offset of `uh_dport` in `struct udphdr`. -/
def uh_dport_offset : Nat := 2

/-- Offset of `uh_ulen` in `struct udphdr`. -/
def uh_ulen_offset : Nat := 4

/-- Offset of `uh_sum` in `struct udphdr`. -/
def uh_sum_offset : Nat := 6

/-- The macro `QUIC_VERSION_FORCE_NEGOTIATION` of `module_quic_initial.h`. -/
def QUIC_VERSION_FORCE_NEGOTIATION : Nat := 0x1a1a1a1a

/-- The macro `QUIC_PACKET_LENGTH` of `module_quic_initial.h`. -/
def QUIC_PACKET_LENGTH : Nat := 1200

/-- The macro `HEADER_CONNECTION_ID_LENGTH` of `module_quic_initial.h`. -/
def HEADER_CONNECTION_ID_LENGTH : Nat := 0x08

/-- Offset of `header_flags` in the packed `quic_long_hdr`. -/
def header_flags_offset : Nat := 0

/-- Offset of `version` in the packed `quic_long_hdr`. -/
def version_offset : Nat := 1

/-- Offset of `dst_conn_id_length` in the packed `quic_long_hdr`. -/
def dst_conn_id_length_offset : Nat := 5

/-- Offset of `dst_conn_id` in the packed `quic_long_hdr`. -/
def dst_conn_id_offset : Nat := 6

/-- Offset of `src_conn_id_length` in the packed `quic_long_hdr`. -/
def src_conn_id_length_offset : Nat := 14

/-- Offset of `token_length` in the packed `quic_long_hdr`. -/
def token_length_offset : Nat := 15

/-- Offset of `length` in the packed `quic_long_hdr`. -/
def length_offset : Nat := 16

/-- Offset of `packet_number` in the packed `quic_long_hdr`. -/
def packet_number_offset : Nat := 18

/-- The value of `sizeof(quic_long_hdr)`: 1 + 4 + 1 + 8 + 1 + 1 + 2 + 4 bytes, packed. -/
def sizeof_quic_long_hdr : Nat := 22

/-- The value of `sizeof(common_hdr->packet_number)`, a `uint32_t`. -/
def sizeof_packet_number : Nat := 4

/-- Offset of the IP header in the frame: `&eth_header[1]`. -/
def ip_header : Nat := sizeof_ether_header

/-- Offset of the UDP header in the frame: `&ip_header[1]`. -/
def udp_header : Nat := ip_header + sizeof_ip

/-- Offset of the UDP payload in the frame: `&udp_header[1]`. -/
def payload : Nat := udp_header + sizeof_udphdr

/-! ## Module globals and initialisation -/

/-- Conversion of a `char` (signed, as on x86) to `uint64_t`. -/
def uint64_of_char (c : Int) : Nat :=
  (c % 18446744073709551616).toNat

/-- The function `make_quic_conn_id`. In C the cast binds tighter than `<<`, which binds
tighter than the bitwise or; shifts are taken in `uint64_t`. -/
def make_quic_conn_id (a b c d e f g h : Int) : Nat :=
  uint64_of_char a |||
    (uint64_of_char b <<< 8) % 18446744073709551616 |||
    (uint64_of_char c <<< 16) % 18446744073709551616 |||
    (uint64_of_char d <<< 24) % 18446744073709551616 |||
    (uint64_of_char e <<< 32) % 18446744073709551616 |||
    (uint64_of_char f <<< 40) % 18446744073709551616 |||
    (uint64_of_char g <<< 48) % 18446744073709551616 |||
    (uint64_of_char h <<< 56) % 18446744073709551616

/-- The fields of `struct state_conf` that the module reads. -/
structure state_conf where
  source_port_first : Nat
  source_port_last : Nat
  target_port : Nat
deriving DecidableEq

/-- The module's global variables `num_ports`, `connection_id` and `checker_bitmap`. -/
structure Globals where
  num_ports : Int
  connection_id : Nat
  checker_bitmap : Bitmap
deriving DecidableEq

/-- The function `quic_initial_global_initialize`, as far as it sets `num_ports`,
`connection_id` and `checker_bitmap`. The character arguments are the codes of
'S', 'C', 'A', 'N', 'N', 'I', 'N', 'G'. -/
def quic_initial_global_initialize (conf : state_conf) : Globals :=
  { num_ports := (conf.source_port_last : Int) - (conf.source_port_first : Int) + 1
    connection_id := make_quic_conn_id 83 67 65 78 78 73 78 71
    checker_bitmap := pbm_init }

/-! ## The packet builder -/

/-- The function `quic_initial_make_packet`; the result is the frame buffer after the
call (the C function always returns `EXIT_SUCCESS`; its arguments `buf_len`, `ttl` and
`arg` are unused). The globals `num_ports` and
`connection_id` and the external port selection `get_src_port` (of `packet.h`, returning
`uint16_t`) are parameters. The flag macros of `module_quic_initial.h` are unparenthesised
token sequences; they are expanded in place and grouped as C parses them (`<<` binds
tighter than the bitwise or). -/
def quic_initial_make_packet (get_src_port : Int → Int → List Nat → Nat)
    (num_ports : Int) (connection_id : Nat) (buf : Buffer) (src_ip dst_ip : Nat)
    (validation : List Nat) (probe_num : Int) : Buffer :=
  let buf := store32 buf (ip_header + ip_src_offset) src_ip
  let buf := store32 buf (ip_header + ip_dst_offset) dst_ip
  let buf := store16 buf (udp_header + uh_sport_offset)
    (htons (get_src_port num_ports probe_num validation % 65536))
  let buf := memset buf payload 0 QUIC_PACKET_LENGTH
  let protected_header_flags := ((0x00 <<< 2) ||| 0x01) % 256
  let public_header_flags := ((0x1 <<< 7) ||| (0x1 <<< 6) ||| (0x00 <<< 4)) % 256
  let buf := store8 buf (payload + header_flags_offset)
    (protected_header_flags ||| public_header_flags)
  let buf := store32 buf (payload + version_offset) QUIC_VERSION_FORCE_NEGOTIATION
  let buf := store8 buf (payload + dst_conn_id_length_offset) HEADER_CONNECTION_ID_LENGTH
  let buf := store64 buf (payload + dst_conn_id_offset) connection_id
  let buf := store8 buf (payload + src_conn_id_length_offset) 0x00
  let buf := store8 buf (payload + token_length_offset) 0x00
  let buf := store16 buf (payload + length_offset)
    (QUIC_PACKET_LENGTH - sizeof_quic_long_hdr + sizeof_packet_number)
  let buf := store32 buf (payload + packet_number_offset) 0x0000
  let payload_len := QUIC_PACKET_LENGTH
  let buf := store16 buf (ip_header + ip_len_offset)
    (htons ((sizeof_ip + sizeof_udphdr + payload_len) % 65536))
  let buf := store16 buf (udp_header + uh_ulen_offset)
    (ntohs ((sizeof_udphdr + payload_len) % 65536))
  let buf := store16 buf (ip_header + ip_sum_offset) 0
  let buf := store16 buf (ip_header + ip_sum_offset) (zmap_ip_checksum buf ip_header)
  buf

/-- The frame buffer inside `quic_initial_make_packet` just before its last statement,
`ip_header->ip_sum = zmap_ip_checksum(...)`: all fields are final and `ip_sum` is zero. -/
def make_packet_before_checksum (get_src_port : Int → Int → List Nat → Nat)
    (num_ports : Int) (connection_id : Nat) (buf : Buffer) (src_ip dst_ip : Nat)
    (validation : List Nat) (probe_num : Int) : Buffer :=
  let buf := store32 buf (ip_header + ip_src_offset) src_ip
  let buf := store32 buf (ip_header + ip_dst_offset) dst_ip
  let buf := store16 buf (udp_header + uh_sport_offset)
    (htons (get_src_port num_ports probe_num validation % 65536))
  let buf := memset buf payload 0 QUIC_PACKET_LENGTH
  let protected_header_flags := ((0x00 <<< 2) ||| 0x01) % 256
  let public_header_flags := ((0x1 <<< 7) ||| (0x1 <<< 6) ||| (0x00 <<< 4)) % 256
  let buf := store8 buf (payload + header_flags_offset)
    (protected_header_flags ||| public_header_flags)
  let buf := store32 buf (payload + version_offset) QUIC_VERSION_FORCE_NEGOTIATION
  let buf := store8 buf (payload + dst_conn_id_length_offset) HEADER_CONNECTION_ID_LENGTH
  let buf := store64 buf (payload + dst_conn_id_offset) connection_id
  let buf := store8 buf (payload + src_conn_id_length_offset) 0x00
  let buf := store8 buf (payload + token_length_offset) 0x00
  let buf := store16 buf (payload + length_offset)
    (QUIC_PACKET_LENGTH - sizeof_quic_long_hdr + sizeof_packet_number)
  let buf := store32 buf (payload + packet_number_offset) 0x0000
  let payload_len := QUIC_PACKET_LENGTH
  let buf := store16 buf (ip_header + ip_len_offset)
    (htons ((sizeof_ip + sizeof_udphdr + payload_len) % 65536))
  let buf := store16 buf (udp_header + uh_ulen_offset)
    (ntohs ((sizeof_udphdr + payload_len) % 65536))
  let buf := store16 buf (ip_header + ip_sum_offset) 0
  buf

/-! ## The packet filter built at initialisation -/

/-- The C string held in a `char` array: the characters before the first NUL. -/
def cstring (buf : List Nat) : List Nat :=
  buf.takeWhile (fun ch => ch ≠ 0)

/-- The libc `memcpy(dst, src, n)` on two arrays, from their first elements. -/
def memcpy (dst src : List Nat) (n : Nat) : List Nat :=
  src.take n ++ dst.drop n

/-- The libc `strncat(dst, src, n)`: at the terminator of `dst` write at most `n`
characters of the string `src` and then a NUL. -/
def strncat (dst src : List Nat) (n : Nat) : List Nat :=
  let k := (cstring dst).length
  let s := (cstring src).take n
  dst.take k ++ s ++ [0] ++ dst.drop (k + s.length + 1)

/-- The libc `sprintf(port, "%d", x)` for a non-negative `x`: the decimal digits of `x`
and a NUL. The bytes of `port` behind the NUL are never read and left out. -/
def sprintf_d (x : Nat) : List Nat :=
  (Nat.toDigits 10 x).map Char.toNat ++ [0]

/-- The bytes of the string literal `"udp src port \0"`, the implicit terminator
included. -/
def udp_src_port_literal : List Nat :=
  [117, 100, 112, 32, 115, 114, 99, 32, 112, 111, 114, 116, 32, 0, 0]

/-- The part of `quic_initial_global_initialize` that builds the packet filter: the
content of the static array `filter_rule` (to which `pcap_filter` points) after the call,
from its content before the call. -/
def global_initialize_filter_rule (filter_rule : List Nat) (conf : state_conf) : List Nat :=
  let port := sprintf_d conf.target_port
  let filter_rule := memcpy filter_rule udp_src_port_literal 14
  strncat filter_rule port 16

/-- The static array `filter_rule[30]` at program start: all zero. -/
def filter_rule_initial : List Nat := List.replicate 30 0

/-! ## The response parser -/

/-- Modelled from the spec: the value of an output field, a string or an integer
(`field_val_t` of `lib/fieldset.h`, which is not part of the sources at hand). -/
inductive field_val where
  | str (s : String)
  | uint64 (n : Nat)
deriving DecidableEq

/-- Modelled from the spec: one named typed value of the output field set (`field_t` of
`lib/fieldset.h`). -/
structure field where
  name : String
  value : field_val
deriving DecidableEq

/-- Modelled from the spec: the output field set (`fieldset_t` of `lib/fieldset.h`), an
ordered mapping of named typed values. -/
abbrev fieldset := List field

set_option linter.unusedVariables false in
/-- The function `quic_initial_process_packet`; the result is the field set `fs` after
the call. The whole body of the C function is inside a comment, so the function reads
nothing and returns at once. -/
def quic_initial_process_packet (packet : Buffer) (len : Nat) (fs : fieldset)
    (validation : List Nat) : fieldset :=
  fs

/-! ## Sample responses -/

/-- The frame buffer that holds the given bytes from offset 0 on and zero behind them. -/
def frame_of_bytes (l : List Nat) : Buffer :=
  fun j => byte (l.getD j 0)

/-- A QUIC version-negotiation response as a received frame: Ethernet header, IPv4 header
(protocol UDP), UDP header (source port 443), and the payload: first byte `0x80`, version
0, empty destination connection ID, source connection ID "SCANNING", and the two version
tags `0x00000001` and `0xff00001d`. The frame is 65 bytes long. -/
def sample_version_negotiation_frame : Buffer :=
  frame_of_bytes
    ([0, 0, 0, 0, 0, 0, 0, 0, 0, 0, 0, 0, 0x08, 0x00] ++
     [0x45, 0, 0, 51, 0, 0, 0, 0, 57, 17, 0, 0, 1, 2, 3, 4, 10, 0, 0, 1] ++
     [0x01, 0xBB, 0x9C, 0x40, 0, 31, 0, 0] ++
     [0x80, 0, 0, 0, 0, 0, 8, 83, 67, 65, 78, 78, 73, 78, 71] ++
     [0, 0, 0, 1, 0xff, 0, 0, 0x1d])

/-- A response like `sample_version_negotiation_frame` whose only version tag is the tag
`0x1a1a1a1a` that the probe itself sent. The frame is 61 bytes long. -/
def sample_version_echo_frame : Buffer :=
  frame_of_bytes
    ([0, 0, 0, 0, 0, 0, 0, 0, 0, 0, 0, 0, 0x08, 0x00] ++
     [0x45, 0, 0, 47, 0, 0, 0, 0, 57, 17, 0, 0, 1, 2, 3, 4, 10, 0, 0, 1] ++
     [0x01, 0xBB, 0x9C, 0x40, 0, 27, 0, 0] ++
     [0x80, 0, 0, 0, 0, 0, 8, 83, 67, 65, 78, 78, 73, 78, 71] ++
     [0x1a, 0x1a, 0x1a, 0x1a])

/-- A field set as the receive loop hands it to the parser: the IP fields only. -/
def sample_fieldset : fieldset :=
  [field.mk "saddr" (field_val.str "1.2.3.4"), field.mk "ttl" (field_val.uint64 57)]

/-! ## Properties of the dedup bitmap model -/

theorem pbm_check_set (b : Bitmap) (v w : Nat) :
    pbm_check (pbm_set b v) w = (pbm_check b w || decide (v = w)) := by
  simp [pbm_check, pbm_set, Nat.testBit_or, Nat.one_shiftLeft, Nat.testBit_two_pow]

theorem pbm_check_set_self (b : Bitmap) (v : Nat) : pbm_check (pbm_set b v) v = true := by
  simp [pbm_check_set]

theorem pbm_check_set_mono (b : Bitmap) (v w : Nat) (h : pbm_check b w = true) :
    pbm_check (pbm_set b v) w = true := by
  simp [pbm_check_set, h]

/-! ## Properties of the validator -/

theorem validate_unfold (bm : Bitmap) (h : ip) (len : Nat) :
    quic_initial_validate_packet bm h len =
      if h.ip_p = IPPROTO_UDP ∧ 4 * h.ip_hl + sizeof_udphdr ≤ len ∧
          pbm_check bm (ntohl h.ip_src) = false then
        (1, pbm_set bm (ntohl h.ip_src))
      else (0, bm) := by
  simp only [quic_initial_validate_packet]
  by_cases hp : h.ip_p = IPPROTO_UDP
  · by_cases hl : 4 * h.ip_hl + sizeof_udphdr > len
    · have hl2 : ¬ (4 * h.ip_hl + sizeof_udphdr ≤ len) := by omega
      simp [hp, hl, hl2]
    · have hl2 : 4 * h.ip_hl + sizeof_udphdr ≤ len := by omega
      by_cases hb : pbm_check bm (ntohl h.ip_src) = true
      · simp [hp, hl, hl2, hb]
      · simp [hp, hl, hl2, hb]
  · simp [hp]

theorem validate_keeps_bits (bm : Bitmap) (h : ip) (len w : Nat)
    (hw : pbm_check bm w = true) :
    pbm_check (quic_initial_validate_packet bm h len).2 w = true := by
  rw [validate_unfold]
  split_ifs
  · exact pbm_check_set_mono bm _ w hw
  · exact hw

theorem validate_accept_sets_bit (bm : Bitmap) (h : ip) (len : Nat)
    (hacc : (quic_initial_validate_packet bm h len).1 = 1) :
    pbm_check (quic_initial_validate_packet bm h len).2 (ntohl h.ip_src) = true := by
  rw [validate_unfold] at hacc ⊢
  split_ifs at hacc ⊢
  exact pbm_check_set_self bm _

theorem validate_reject_of_bit (bm : Bitmap) (h : ip) (len : Nat)
    (hb : pbm_check bm (ntohl h.ip_src) = true) :
    (quic_initial_validate_packet bm h len).1 = 0 := by
  rw [validate_unfold]
  simp [hb]

theorem validate_results_reject_of_bit (calls : List ValidateCall) :
    ∀ (bm : Bitmap) (j : Nat) (cj : ValidateCall), calls[j]? = some cj →
      pbm_check bm (ntohl cj.ip_hdr.ip_src) = true →
      (validate_results bm calls)[j]? = some 0 := by
  induction calls with
  | nil => intro bm j cj hj; simp at hj
  | cons c cs ih =>
    intro bm j cj hj hb
    cases j with
    | zero =>
      simp only [List.getElem?_cons_zero, Option.some.injEq] at hj
      subst hj
      simp [validate_results, validate_reject_of_bit bm c.ip_hdr c.len hb]
    | succ k =>
      simp only [List.getElem?_cons_succ] at hj
      simp only [validate_results, List.getElem?_cons_succ]
      exact ih _ k cj hj (validate_keeps_bits bm c.ip_hdr c.len _ hb)

/-- C1: in every sequence of validator calls on the shared bitmap, started from any
bitmap, once the call at position `i` has returned accept (1), every later call (position
`j > i`) whose IP header carries the same source address returns reject (0), whatever
the other header fields and captured lengths are and whatever calls lie in between. -/
theorem validate_dedup_after_accept (calls : List ValidateCall) :
    ∀ (bm : Bitmap) (i j : Nat) (ci cj : ValidateCall),
      i < j → calls[i]? = some ci → calls[j]? = some cj →
      cj.ip_hdr.ip_src = ci.ip_hdr.ip_src →
      (validate_results bm calls)[i]? = some 1 →
      (validate_results bm calls)[j]? = some 0 := by
  induction calls with
  | nil => intro bm i j ci cj _ hi; simp at hi
  | cons c cs ih =>
    intro bm i j ci cj hij hi hj hsrc hacc
    obtain ⟨k, rfl⟩ : ∃ k, j = k + 1 := ⟨j - 1, by omega⟩
    simp only [List.getElem?_cons_succ] at hj
    simp only [validate_results, List.getElem?_cons_succ]
    cases i with
    | zero =>
      simp only [List.getElem?_cons_zero, Option.some.injEq] at hi
      subst hi
      simp only [validate_results, List.getElem?_cons_zero, Option.some.injEq] at hacc
      apply validate_results_reject_of_bit cs _ k cj hj
      rw [hsrc]
      exact validate_accept_sets_bit bm c.ip_hdr c.len hacc
    | succ i' =>
      simp only [List.getElem?_cons_succ] at hi
      simp only [validate_results, List.getElem?_cons_succ] at hacc
      exact ih _ i' k ci cj (by omega) hi hj hsrc hacc

/-! ## Properties of buffers -/

theorem byte_val (v : Nat) : (byte v).val = v % 256 := rfl

theorem store8_apply (b : Buffer) (a v j : Nat) :
    store8 b a v j = if j = a then byte v else b j := rfl

theorem memset_apply (b : Buffer) (a c n j : Nat) :
    memset b a c n j = if a ≤ j ∧ j < a + n then byte c else b j := rfl

theorem load16_le (b : Buffer) (a : Nat) : load16 b a ≤ 65535 := by
  have h0 := (b a).isLt
  have h1 := (b (a + 1)).isLt
  unfold load16
  omega

theorem sum_words_le (b : Buffer) : ∀ (n a : Nat), sum_words b a n ≤ 65535 * n := by
  intro n
  induction n with
  | zero => intro a; simp [sum_words]
  | succ k ih =>
    intro a
    have h := load16_le b a
    have h2 := ih (a + 2)
    simp only [sum_words]
    omega

theorem sum_words_ten (b : Buffer) (a : Nat) :
    sum_words b a 10 = load16 b a + load16 b (a + 2) + load16 b (a + 4) + load16 b (a + 6)
      + load16 b (a + 8) + load16 b (a + 10) + load16 b (a + 12) + load16 b (a + 14)
      + load16 b (a + 16) + load16 b (a + 18) := by
  simp only [sum_words, Nat.add_assoc, Nat.reduceAdd, Nat.add_zero]

theorem load16_store16_other (b : Buffer) (a v k : Nat) (h : k + 1 < a ∨ a + 1 < k) :
    load16 (store16 b a v) k = load16 b k := by
  have h1 : k ≠ a + 1 := by omega
  have h2 : k ≠ a := by omega
  have h3 : k + 1 ≠ a + 1 := by omega
  have h4 : k + 1 ≠ a := by omega
  simp [load16, store16, store8_apply, h1, h2, h3, h4]

theorem load16_store16_same (b : Buffer) (a v : Nat) :
    load16 (store16 b a v) a = v % 65536 := by
  simp [load16, store16, store8_apply, byte_val]
  omega

theorem fold16_spec (s : Nat) (hs : s ≤ 65535 * 11) :
    fold16 s ≤ 65535 ∧ fold16 s % 65535 = s % 65535 ∧ (fold16 s = 0 ↔ s = 0) := by
  unfold fold16
  simp only
  have hq : s / 65536 ≤ 10 := by omega
  have hr : s % 65536 < 65536 := by omega
  have hdecomp : s = 65535 * (s / 65536) + (s / 65536 + s % 65536) := by omega
  generalize s / 65536 = q at *
  generalize s % 65536 = r at *
  have hmod : s % 65535 = (q + r) % 65535 := by
    rw [hdecomp, Nat.mul_add_mod]
  rw [hmod]
  by_cases hc : q + r < 65536
  · have h1 : (q + r) / 65536 = 0 := Nat.div_eq_of_lt hc
    have h2 : (q + r + 0) % 65536 = q + r := Nat.mod_eq_of_lt hc
    rw [h1, h2]
    refine ⟨by omega, rfl, by omega⟩
  · have h0 : q + r = 65536 + (q + r - 65536) := by omega
    have h1 : (q + r) / 65536 = 1 := by
      rw [h0, Nat.add_div_left _ (by decide), Nat.div_eq_of_lt (by omega)]
    have h2 : (q + r + 1) % 65536 = q + r - 65535 := by
      have : q + r + 1 = (q + r - 65535) + 65536 := by omega
      rw [this, Nat.add_mod_right, Nat.mod_eq_of_lt (by omega)]
    have h3 : (q + r - 65535) % 65535 = (q + r) % 65535 := by
      have : q + r = (q + r - 65535) + 65535 := by omega
      rw [this, Nat.add_mod_right, Nat.add_sub_cancel]
    rw [h1, h2, h3]
    refine ⟨by omega, rfl, by omega⟩

theorem fold16_checksum (s : Nat) (hs : s ≤ 65535 * 10) :
    fold16 (s + (65535 - fold16 s)) = 65535 := by
  obtain ⟨h1, h2, h3⟩ := fold16_spec s (by omega)
  obtain ⟨g1, g2, g3⟩ := fold16_spec (s + (65535 - fold16 s)) (by omega)
  generalize fold16 (s + (65535 - fold16 s)) = t at *
  generalize fold16 s = f at *
  have ht : (s + (65535 - f)) % 65535 = 0 := by omega
  have hne : t ≠ 0 := by
    intro h0
    have := g3.mp h0
    have := h3.mpr (by omega)
    omega
  omega

/-- Storing the Internet checksum of a header whose checksum field is zero yields a
header whose ten words sum to `0xFFFF` in one's-complement arithmetic. -/
theorem checksum_store_valid (b : Buffer) (a : Nat)
    (h0 : load16 b (a + 10) = 0) :
    fold16 (sum_words (store16 b (a + 10) (zmap_ip_checksum b a)) a 10) = 65535 := by
  have hS := sum_words_le b 10 a
  have hc : zmap_ip_checksum b a % 65536 = 65535 - fold16 (sum_words b a 10) := by
    unfold zmap_ip_checksum; omega
  have e1 := sum_words_ten b a
  have e2 := sum_words_ten (store16 b (a + 10) (zmap_ip_checksum b a)) a
  rw [load16_store16_same, hc,
    load16_store16_other _ _ _ a (by omega), load16_store16_other _ _ _ (a + 2) (by omega),
    load16_store16_other _ _ _ (a + 4) (by omega), load16_store16_other _ _ _ (a + 6) (by omega),
    load16_store16_other _ _ _ (a + 8) (by omega), load16_store16_other _ _ _ (a + 12) (by omega),
    load16_store16_other _ _ _ (a + 14) (by omega), load16_store16_other _ _ _ (a + 16) (by omega),
    load16_store16_other _ _ _ (a + 18) (by omega)] at e2
  have key : sum_words (store16 b (a + 10) (zmap_ip_checksum b a)) a 10
      = sum_words b a 10 + (65535 - fold16 (sum_words b a 10)) := by
    omega
  rw [key]
  exact fold16_checksum _ (by omega)

/-! ## End-around-carry form of the one's-complement sum -/

theorem ones_add_spec (x y : Nat) (hx : x ≤ 65535) (hy : y ≤ 65535) :
    ones_add x y ≤ 65535 ∧ ones_add x y % 65535 = (x + y) % 65535 ∧
      (ones_add x y = 0 ↔ x + y = 0) := by
  unfold ones_add
  by_cases hc : x + y < 65536
  · have h1 : (x + y) / 65536 = 0 := by omega
    have h2 : (x + y) % 65536 = x + y := by omega
    rw [h1, h2]
    omega
  · have h1 : (x + y) / 65536 = 1 := by omega
    have h2 : (x + y) % 65536 = x + y - 65536 := by omega
    rw [h1, h2]
    omega

theorem ones_sum_spec (b : Buffer) : ∀ (n a : Nat),
    ones_sum b a n ≤ 65535 ∧ ones_sum b a n % 65535 = sum_words b a n % 65535 ∧
      (ones_sum b a n = 0 ↔ sum_words b a n = 0) := by
  intro n
  induction n with
  | zero => intro a; simp [ones_sum, sum_words]
  | succ k ih =>
    intro a
    obtain ⟨i1, i2, i3⟩ := ih (a + 2)
    obtain ⟨j1, j2, j3⟩ := ones_add_spec (load16 b a) (ones_sum b (a + 2) k) (load16_le b a) i1
    simp only [ones_sum, sum_words]
    refine ⟨j1, ?_, ?_⟩
    · omega
    · omega

theorem ones_sum_of_fold16 (b : Buffer) (a : Nat)
    (h : fold16 (sum_words b a 10) = 65535) : ones_sum b a 10 = 65535 := by
  obtain ⟨h1, h2, h3⟩ := fold16_spec (sum_words b a 10) (by have := sum_words_le b 10 a; omega)
  obtain ⟨i1, i2, i3⟩ := ones_sum_spec b 10 a
  have hne : ones_sum b a 10 ≠ 0 := by
    intro h0
    have := i3.mp h0
    have := h3.mpr this
    omega
  omega

/-! ## Bytes written by the packet builder -/

/-- The bytes of the IP length field, the UDP length field and the fixed long header
left by `quic_initial_make_packet`, for every input. -/
theorem make_packet_bytes (g : Int → Int → List Nat → Nat) (n : Int) (c : Nat) (b : Buffer)
    (s d : Nat) (v : List Nat) (p : Int) :
    ((quic_initial_make_packet g n c b s d v p 16).val = 4 ∧
     (quic_initial_make_packet g n c b s d v p 17).val = 204 ∧
     (quic_initial_make_packet g n c b s d v p 38).val = 4 ∧
     (quic_initial_make_packet g n c b s d v p 39).val = 184) ∧
    ((quic_initial_make_packet g n c b s d v p 42).val = 193 ∧
     (quic_initial_make_packet g n c b s d v p 43).val = 26 ∧
     (quic_initial_make_packet g n c b s d v p 44).val = 26 ∧
     (quic_initial_make_packet g n c b s d v p 45).val = 26 ∧
     (quic_initial_make_packet g n c b s d v p 46).val = 26 ∧
     (quic_initial_make_packet g n c b s d v p 47).val = 8) ∧
    ((quic_initial_make_packet g n c b s d v p 48).val = c % 256 ∧
     (quic_initial_make_packet g n c b s d v p 49).val = c / 256 % 256 ∧
     (quic_initial_make_packet g n c b s d v p 50).val = c / 65536 % 256 ∧
     (quic_initial_make_packet g n c b s d v p 51).val = c / 16777216 % 256 ∧
     (quic_initial_make_packet g n c b s d v p 52).val = c / 4294967296 % 256 ∧
     (quic_initial_make_packet g n c b s d v p 53).val = c / 1099511627776 % 256 ∧
     (quic_initial_make_packet g n c b s d v p 54).val = c / 281474976710656 % 256 ∧
     (quic_initial_make_packet g n c b s d v p 55).val = c / 72057594037927936 % 256) ∧
    ((quic_initial_make_packet g n c b s d v p 56).val = 0 ∧
     (quic_initial_make_packet g n c b s d v p 57).val = 0 ∧
     (quic_initial_make_packet g n c b s d v p 58).val = 158 ∧
     (quic_initial_make_packet g n c b s d v p 59).val = 4 ∧
     (quic_initial_make_packet g n c b s d v p 60).val = 0 ∧
     (quic_initial_make_packet g n c b s d v p 61).val = 0 ∧
     (quic_initial_make_packet g n c b s d v p 62).val = 0 ∧
     (quic_initial_make_packet g n c b s d v p 63).val = 0) := by
  refine ⟨⟨?_, ?_, ?_, ?_⟩, ⟨?_, ?_, ?_, ?_, ?_, ?_⟩, ⟨?_, ?_, ?_, ?_, ?_, ?_, ?_, ?_⟩,
    ⟨?_, ?_, ?_, ?_, ?_, ?_, ?_, ?_⟩⟩ <;>
  simp [quic_initial_make_packet, store64, store32, store16, store8_apply, memset_apply,
    payload, udp_header, ip_header, sizeof_ether_header, sizeof_ip, sizeof_udphdr,
    header_flags_offset, version_offset, dst_conn_id_length_offset, dst_conn_id_offset,
    src_conn_id_length_offset, token_length_offset, length_offset, packet_number_offset,
    ip_len_offset, ip_sum_offset, ip_src_offset, ip_dst_offset, uh_sport_offset,
    uh_ulen_offset, byte_val, QUIC_PACKET_LENGTH, QUIC_VERSION_FORCE_NEGOTIATION,
    HEADER_CONNECTION_ID_LENGTH, sizeof_quic_long_hdr, sizeof_packet_number, htons, ntohs,
    Nat.div_div_eq_div_mul]

theorem store16_store16_same (b : Buffer) (a v w : Nat) :
    store16 (store16 b a v) a w = store16 b a w := by
  funext j
  simp only [store16, store8_apply]
  split_ifs <;> rfl

theorem zmap_ip_checksum_le (b : Buffer) (a : Nat) : zmap_ip_checksum b a ≤ 65535 := by
  unfold zmap_ip_checksum
  omega

theorem store8_out (b : Buffer) (a v j : Nat) (h : j ≠ a) : store8 b a v j = b j := by
  simp [store8_apply, h]

theorem store16_out (b : Buffer) (a v j : Nat) (h : j < a ∨ a + 2 ≤ j) :
    store16 b a v j = b j := by
  unfold store16
  rw [store8_out _ _ _ _ (by omega), store8_out _ _ _ _ (by omega)]

theorem store32_out (b : Buffer) (a v j : Nat) (h : j < a ∨ a + 4 ≤ j) :
    store32 b a v j = b j := by
  unfold store32
  rw [store16_out _ _ _ _ (by omega), store16_out _ _ _ _ (by omega)]

theorem store64_out (b : Buffer) (a v j : Nat) (h : j < a ∨ a + 8 ≤ j) :
    store64 b a v j = b j := by
  unfold store64
  rw [store32_out _ _ _ _ (by omega), store32_out _ _ _ _ (by omega)]

theorem memset_in (b : Buffer) (a c n j : Nat) (h : a ≤ j ∧ j < a + n) :
    memset b a c n j = byte c := by
  simp [memset_apply, h]

theorem memset_out (b : Buffer) (a c n j : Nat) (h : j < a ∨ a + n ≤ j) :
    memset b a c n j = b j := by
  have h2 : ¬ (a ≤ j ∧ j < a + n) := by omega
  simp [memset_apply, h2]

theorem connection_id_value (conf : state_conf) :
    ( quic_initial_global_initialize conf).connection_id = 0x474E494E4E414353 := by
  show make_quic_conn_id 83 67 65 78 78 73 78 71 = 0x474E494E4E414353
  decide

/-! ## The validator: claims -/

/-- Witness of C1: three calls on an empty bitmap; the first (UDP, long enough, `s_addr`
`0x05000000`) is accepted, the second has another source, the third has the first source
again, is UDP and long enough with other header fields, and is rejected. -/
theorem validate_dedup_after_accept_witness :
    (validate_results pbm_init
      [⟨⟨5, 4, 0, 0, 0, 0, 64, 17, 0, 83886080, 0⟩, 100⟩,
       ⟨⟨5, 4, 0, 0, 0, 0, 64, 17, 0, 7, 0⟩, 100⟩,
       ⟨⟨6, 4, 0, 1228, 7, 0, 57, 17, 0, 83886080, 9⟩, 1500⟩])[0]? = some 1 ∧
    (validate_results pbm_init
      [⟨⟨5, 4, 0, 0, 0, 0, 64, 17, 0, 83886080, 0⟩, 100⟩,
       ⟨⟨5, 4, 0, 0, 0, 0, 64, 17, 0, 7, 0⟩, 100⟩,
       ⟨⟨6, 4, 0, 1228, 7, 0, 57, 17, 0, 83886080, 9⟩, 1500⟩])[2]? = some 0 :=
  ⟨by decide,
   validate_dedup_after_accept _ pbm_init 0 2
     ⟨⟨5, 4, 0, 0, 0, 0, 64, 17, 0, 83886080, 0⟩, 100⟩
     ⟨⟨6, 4, 0, 1228, 7, 0, 57, 17, 0, 83886080, 9⟩, 1500⟩
     (by decide) rfl rfl rfl (by decide)⟩

/-- C2: for every IP header, captured length and bitmap, the validator returns accept (1)
exactly when the protocol is UDP, the captured length is at least `4*ip_hl + 8` and the
dedup bit of the header's source address is clear; in every other case it returns
reject (0). -/
theorem validate_accept_iff (bm : Bitmap) (h : ip) (len : Nat) :
    ((quic_initial_validate_packet bm h len).1 = 1 ↔
      (h.ip_p = IPPROTO_UDP ∧ 4 * h.ip_hl + 8 ≤ len ∧
        pbm_check bm (ntohl h.ip_src) = false)) ∧
    (quic_initial_validate_packet bm h len).1 =
      (if h.ip_p = IPPROTO_UDP ∧ 4 * h.ip_hl + 8 ≤ len ∧
        pbm_check bm (ntohl h.ip_src) = false then 1 else 0) := by
  rw [validate_unfold]
  simp only [sizeof_udphdr]
  split_ifs with hc
  · simp [hc]
  · simp [hc]

/-- C3: the validator changes the dedup bitmap only on accept and only at the packet's
own source: either it returns accept, the bit of `ntohl(ip_src)` was clear, and the new
bitmap is the old one with exactly that bit added (every other bit as before); or it
returns reject and the bitmap is unchanged. -/
theorem validate_bitmap_effect (bm : Bitmap) (h : ip) (len : Nat) :
    ((quic_initial_validate_packet bm h len).1 = 1 ∧
      (quic_initial_validate_packet bm h len).2 = pbm_set bm (ntohl h.ip_src) ∧
      pbm_check bm (ntohl h.ip_src) = false ∧
      ∀ w, pbm_check (quic_initial_validate_packet bm h len).2 w =
        (pbm_check bm w || decide (w = ntohl h.ip_src))) ∨
    ((quic_initial_validate_packet bm h len).1 = 0 ∧
      (quic_initial_validate_packet bm h len).2 = bm) := by
  rw [validate_unfold]
  split_ifs with hc
  · left
    refine ⟨rfl, rfl, hc.2.2, ?_⟩
    intro w
    rw [pbm_check_set]
    congr 1
    exact decide_eq_decide.mpr eq_comm
  · right
    exact ⟨rfl, rfl⟩

/-! ## The packet builder: claims -/

/-- C4: for every input and prior buffer content, after `quic_initial_make_packet` the UDP
length field holds 8 + 1200 = 1208 and the IP total-length field holds 20 + 8 + 1200 = 1228,
both in network byte order, so the UDP payload length is exactly 1200; `ntohs`, which the
code uses for the UDP length, coincides with `htons`. -/
theorem make_packet_length_fields (g : Int → Int → List Nat → Nat) (n : Int) (c : Nat)
    (b : Buffer) (s d : Nat) (v : List Nat) (p : Int) :
    wire16 (quic_initial_make_packet g n c b s d v p) (udp_header + uh_ulen_offset) = 1208 ∧
    wire16 (quic_initial_make_packet g n c b s d v p) (ip_header + ip_len_offset) = 1228 ∧
    wire16 (quic_initial_make_packet g n c b s d v p) (udp_header + uh_ulen_offset)
      - sizeof_udphdr = QUIC_PACKET_LENGTH ∧
    sizeof_udphdr + QUIC_PACKET_LENGTH = 1208 ∧
    sizeof_ip + sizeof_udphdr + QUIC_PACKET_LENGTH = 1228 ∧
    QUIC_PACKET_LENGTH = 1200 ∧
    ∀ x, ntohs x = htons x := by
  obtain ⟨⟨h16, h17, h38, h39⟩, -⟩ := make_packet_bytes g n c b s d v p
  have e1 : udp_header + uh_ulen_offset = 38 := rfl
  have e2 : ip_header + ip_len_offset = 16 := rfl
  rw [e1, e2]
  simp only [wire16, h16, h17, h38, h39]
  refine ⟨by decide, by decide, by decide, by decide, by decide, by decide, fun x => rfl⟩

/-- C5: for every input and every prior content of the 20-byte IP header, the IP header
left by `quic_initial_make_packet` has a valid checksum: the one's-complement sum of its
ten 16-bit words, the stored `ip_sum` included, is `0xFFFF` (both as an end-around-carry
sum and as the folded 32-bit sum, so that recomputing the checksum over it gives 0), and
the stored `ip_sum` is the checksum of the final header with `ip_sum` zeroed. -/
theorem make_packet_ip_checksum_valid (g : Int → Int → List Nat → Nat) (n : Int) (c : Nat)
    (b : Buffer) (s d : Nat) (v : List Nat) (p : Int) :
    ones_sum (quic_initial_make_packet g n c b s d v p) ip_header 10 = 0xFFFF ∧
    fold16 (sum_words (quic_initial_make_packet g n c b s d v p) ip_header 10) = 0xFFFF ∧
    zmap_ip_checksum (quic_initial_make_packet g n c b s d v p) ip_header = 0 ∧
    load16 (quic_initial_make_packet g n c b s d v p) (ip_header + ip_sum_offset) =
      zmap_ip_checksum
        (store16 (quic_initial_make_packet g n c b s d v p) (ip_header + ip_sum_offset) 0)
        ip_header := by
  have hfold : fold16 (sum_words (quic_initial_make_packet g n c b s d v p) ip_header 10)
      = 65535 := by
    simp only [quic_initial_make_packet]
    exact checksum_store_valid _ ip_header (load16_store16_same _ _ _)
  refine ⟨ones_sum_of_fold16 _ _ hfold, hfold, ?_, ?_⟩
  · unfold zmap_ip_checksum
    rw [hfold]
  · simp only [quic_initial_make_packet]
    rw [load16_store16_same, store16_store16_same, store16_store16_same]
    exact Nat.mod_eq_of_lt (Nat.lt_succ_of_le (zmap_ip_checksum_le _ _))

/-- C6: for every input, the first byte of the UDP payload written by
`quic_initial_make_packet` is `0xC1`: bit 7 (long form) is 1, bit 6 (fixed bit) is 1,
bits 5-4 (type Initial) are 00, bits 3-2 (reserved) are 00 and bits 1-0 (packet number
length) are 01. -/
theorem make_packet_header_flags (g : Int → Int → List Nat → Nat) (n : Int) (c : Nat)
    (b : Buffer) (s d : Nat) (v : List Nat) (p : Int) :
    (quic_initial_make_packet g n c b s d v p (payload + header_flags_offset)).val = 0xC1 ∧
    (quic_initial_make_packet g n c b s d v p (payload + header_flags_offset)).val
      / 128 % 2 = 1 ∧
    (quic_initial_make_packet g n c b s d v p (payload + header_flags_offset)).val
      / 64 % 2 = 1 ∧
    (quic_initial_make_packet g n c b s d v p (payload + header_flags_offset)).val
      / 16 % 4 = 0 ∧
    (quic_initial_make_packet g n c b s d v p (payload + header_flags_offset)).val
      / 4 % 4 = 0 ∧
    (quic_initial_make_packet g n c b s d v p (payload + header_flags_offset)).val
      % 4 = 1 := by
  obtain ⟨-, ⟨h42, -⟩, -⟩ := make_packet_bytes g n c b s d v p
  have e : payload + header_flags_offset = 42 := rfl
  rw [e, h42]
  decide

/-- C7: for every input, the long header written by `quic_initial_make_packet` has, at the
packed offsets of `quic_long_hdr`: version (payload bytes 1-4) `0x1a1a1a1a` in either byte
order, destination connection ID length (byte 5) 8, destination connection ID (bytes 6-13)
the 64-bit `connection_id` as the host stores it, source connection ID length (byte 14) 0,
token length (byte 15) 0 and packet number (bytes 18-21) 0; the connection ID that
`quic_initial_global_initialize` sets fits in 64 bits, so it is stored unchanged. -/
theorem make_packet_long_header_fields (g : Int → Int → List Nat → Nat) (n : Int) (c : Nat)
    (b : Buffer) (s d : Nat) (v : List Nat) (p : Int) (conf : state_conf) :
    wire32 (quic_initial_make_packet g n c b s d v p) (payload + version_offset)
      = 0x1a1a1a1a ∧
    load32 (quic_initial_make_packet g n c b s d v p) (payload + version_offset)
      = QUIC_VERSION_FORCE_NEGOTIATION ∧
    (quic_initial_make_packet g n c b s d v p (payload + dst_conn_id_length_offset)).val
      = 8 ∧
    load64 (quic_initial_make_packet g n c b s d v p) (payload + dst_conn_id_offset)
      = c % 18446744073709551616 ∧
    (quic_initial_make_packet g n c b s d v p (payload + src_conn_id_length_offset)).val
      = 0 ∧
    (quic_initial_make_packet g n c b s d v p (payload + token_length_offset)).val = 0 ∧
    load32 (quic_initial_make_packet g n c b s d v p) (payload + packet_number_offset) = 0 ∧
    load64 (quic_initial_make_packet g ( quic_initial_global_initialize conf).num_ports
        ( quic_initial_global_initialize conf).connection_id b s d v p)
        (payload + dst_conn_id_offset)
      = ( quic_initial_global_initialize conf).connection_id := by
  obtain ⟨-, ⟨-, h43, h44, h45, h46, h47⟩, ⟨h48, h49, h50, h51, h52, h53, h54, h55⟩,
    ⟨h56, h57, -, -, h60, h61, h62, h63⟩⟩ := make_packet_bytes g n c b s d v p
  obtain ⟨-, -, ⟨i48, i49, i50, i51, i52, i53, i54, i55⟩, -⟩ :=
    make_packet_bytes g ( quic_initial_global_initialize conf).num_ports
      ( quic_initial_global_initialize conf).connection_id b s d v p
  have e1 : payload + version_offset = 43 := rfl
  have e2 : payload + dst_conn_id_length_offset = 47 := rfl
  have e3 : payload + dst_conn_id_offset = 48 := rfl
  have e4 : payload + src_conn_id_length_offset = 56 := rfl
  have e5 : payload + token_length_offset = 57 := rfl
  have e6 : payload + packet_number_offset = 60 := rfl
  have ec : ( quic_initial_global_initialize conf).connection_id = 0x474E494E4E414353 :=
    connection_id_value conf
  rw [e1, e2, e3, e4, e5, e6]
  simp only [wire32, wire16, load64, load32, load16, Nat.reduceAdd]
  rw [h43, h44, h45, h46, h47, h48, h49, h50, h51, h52, h53, h54, h55, h56, h57, h60, h61,
    h62, h63, i48, i49, i50, i51, i52, i53, i54, i55, ec]
  refine ⟨by decide, by decide, rfl, by omega, rfl, rfl, by decide, by decide⟩

/-- C8 as stated fails: at a concrete input the 16-bit length field is not
`QUIC_PACKET_LENGTH - sizeof(quic_long_hdr)` = 1178, neither as the host reads the field
nor as the two bytes read on the wire. -/
theorem make_packet_length_field_not_1178 :
    ¬ ((load16 (quic_initial_make_packet (fun _ _ _ => 40000) 28233 0x474E494E4E414353 (fun _ => 0)
            0x04030201 0x08070605 [1, 2, 3] 0) (payload + length_offset)
          = QUIC_PACKET_LENGTH - sizeof_quic_long_hdr ∨
        wire16 (quic_initial_make_packet (fun _ _ _ => 40000) 28233 0x474E494E4E414353 (fun _ => 0)
            0x04030201 0x08070605 [1, 2, 3] 0) (payload + length_offset)
          = QUIC_PACKET_LENGTH - sizeof_quic_long_hdr) ∧
      load32 (quic_initial_make_packet (fun _ _ _ => 40000) 28233 0x474E494E4E414353 (fun _ => 0)
          0x04030201 0x08070605 [1, 2, 3] 0) (payload + packet_number_offset) = 0) := by
  decide

/-- C8, amended: for every input, the 16-bit length field written by
`quic_initial_make_packet` holds `QUIC_PACKET_LENGTH - sizeof(quic_long_hdr) +
sizeof(packet_number)` = 1200 - 22 + 4 = 1182, the number of UDP-payload bytes that follow
the length field itself (packet number and padding), and `packet_number` is 0. -/
theorem make_packet_length_field (g : Int → Int → List Nat → Nat) (n : Int) (c : Nat)
    (b : Buffer) (s d : Nat) (v : List Nat) (p : Int) :
    load16 (quic_initial_make_packet g n c b s d v p) (payload + length_offset)
      = QUIC_PACKET_LENGTH - sizeof_quic_long_hdr + sizeof_packet_number ∧
    QUIC_PACKET_LENGTH - sizeof_quic_long_hdr + sizeof_packet_number = 1182 ∧
    QUIC_PACKET_LENGTH - (length_offset + 2) = 1182 ∧
    load32 (quic_initial_make_packet g n c b s d v p) (payload + packet_number_offset)
      = 0 := by
  obtain ⟨-, -, -, ⟨-, -, h58, h59, h60, h61, h62, h63⟩⟩ := make_packet_bytes g n c b s d v p
  have e1 : payload + length_offset = 58 := rfl
  have e2 : payload + packet_number_offset = 60 := rfl
  rw [e1, e2]
  simp only [load32, load16, Nat.reduceAdd]
  rw [h58, h59, h60, h61, h62, h63]
  refine ⟨by decide, by decide, by decide, by decide⟩

/-- C9: for every input and every prior buffer content, after `quic_initial_make_packet`
every UDP-payload byte at an offset from 22 (the end of the fixed long header) up to
1199 is zero. -/
theorem make_packet_padding_zero (g : Int → Int → List Nat → Nat) (n : Int) (c : Nat)
    (b : Buffer) (s d : Nat) (v : List Nat) (p : Int) (i : Nat)
    (hlo : sizeof_quic_long_hdr ≤ i) (hhi : i < QUIC_PACKET_LENGTH) :
    quic_initial_make_packet g n c b s d v p (payload + i) = 0 := by
  simp only [sizeof_quic_long_hdr, QUIC_PACKET_LENGTH] at hlo hhi
  simp only [quic_initial_make_packet, payload, udp_header, ip_header, sizeof_ether_header,
    sizeof_ip, sizeof_udphdr, header_flags_offset, version_offset, dst_conn_id_length_offset,
    dst_conn_id_offset, src_conn_id_length_offset, token_length_offset, length_offset,
    packet_number_offset, ip_len_offset, ip_sum_offset, ip_src_offset, ip_dst_offset,
    uh_sport_offset, uh_ulen_offset, QUIC_PACKET_LENGTH, Nat.reduceAdd]
  rw [store16_out, store16_out, store16_out, store16_out, store32_out, store16_out,
    store8_out, store8_out, store64_out, store8_out, store32_out, store8_out, memset_in]
  · rfl
  all_goals omega

/-- Witness of C9: the last padding byte (offset 1199) of a probe built in a buffer that
held `0xFF` everywhere. -/
theorem make_packet_padding_zero_witness :
    (sizeof_quic_long_hdr ≤ 1199 ∧ 1199 < QUIC_PACKET_LENGTH) ∧
    quic_initial_make_packet (fun _ _ _ => 40000) 28233 0x474E494E4E414353 (fun _ => 255)
      0x04030201 0x08070605 [1, 2, 3] 0 (payload + 1199) = 0 :=
  ⟨by decide, make_packet_padding_zero _ _ _ _ _ _ _ _ 1199 (by decide) (by decide)⟩

/-- C10, the code at a concrete input: payload bytes 16 and 17 are `0x9E` and `0x04`, the
low byte and then the high byte of the length value 1182 = `0x049E`; read in network byte
order the field is 40452, not 1182. -/
theorem make_packet_length_bytes_host_order :
    (quic_initial_make_packet (fun _ _ _ => 40000) 28233 0x474E494E4E414353 (fun _ => 0)
      0x04030201 0x08070605 [1, 2, 3] 0 (payload + length_offset)).val = 0x9E ∧
    (quic_initial_make_packet (fun _ _ _ => 40000) 28233 0x474E494E4E414353 (fun _ => 0)
      0x04030201 0x08070605 [1, 2, 3] 0 (payload + length_offset + 1)).val = 0x04 ∧
    load16 (quic_initial_make_packet (fun _ _ _ => 40000) 28233 0x474E494E4E414353 (fun _ => 0)
      0x04030201 0x08070605 [1, 2, 3] 0) (payload + length_offset) = 1182 ∧
    wire16 (quic_initial_make_packet (fun _ _ _ => 40000) 28233 0x474E494E4E414353 (fun _ => 0)
      0x04030201 0x08070605 [1, 2, 3] 0) (payload + length_offset) = 40452 := by
  decide

/-! ## The connection ID -/

theorem uint64_of_char_ascii (c : Int) (h0 : 0 ≤ c) (h1 : c ≤ 127) :
    uint64_of_char c = c.toNat ∧ c.toNat ≤ 127 := by
  unfold uint64_of_char
  omega

theorem or_shift_eq_add (x y k : Nat) (hx : x < 2 ^ k) :
    x ||| (y <<< k) = x + 2 ^ k * y := by
  rw [Nat.shiftLeft_eq, Nat.mul_comm y, Nat.lor_comm, ← Nat.mul_add_lt_is_or hx y, Nat.add_comm]

theorem make_quic_conn_id_eq (a b c d e f g h : Int)
    (ha : 0 ≤ a ∧ a ≤ 127) (hb : 0 ≤ b ∧ b ≤ 127) (hc : 0 ≤ c ∧ c ≤ 127)
    (hd : 0 ≤ d ∧ d ≤ 127) (he : 0 ≤ e ∧ e ≤ 127) (hf : 0 ≤ f ∧ f ≤ 127)
    (hg : 0 ≤ g ∧ g ≤ 127) (hh : 0 ≤ h ∧ h ≤ 127) :
    make_quic_conn_id a b c d e f g h =
      a.toNat + 256 * b.toNat + 65536 * c.toNat + 16777216 * d.toNat
        + 4294967296 * e.toNat + 1099511627776 * f.toNat + 281474976710656 * g.toNat
        + 72057594037927936 * h.toNat := by
  obtain ⟨ea, la⟩ := uint64_of_char_ascii a ha.1 ha.2
  obtain ⟨eb, lb⟩ := uint64_of_char_ascii b hb.1 hb.2
  obtain ⟨ec, lc⟩ := uint64_of_char_ascii c hc.1 hc.2
  obtain ⟨ed, ld⟩ := uint64_of_char_ascii d hd.1 hd.2
  obtain ⟨ee, le⟩ := uint64_of_char_ascii e he.1 he.2
  obtain ⟨ef, lf⟩ := uint64_of_char_ascii f hf.1 hf.2
  obtain ⟨eg, lg⟩ := uint64_of_char_ascii g hg.1 hg.2
  obtain ⟨eh, lh⟩ := uint64_of_char_ascii h hh.1 hh.2
  unfold make_quic_conn_id
  rw [ea, eb, ec, ed, ee, ef, eg, eh]
  generalize a.toNat = A at *
  generalize b.toNat = B at *
  generalize c.toNat = C at *
  generalize d.toNat = D at *
  generalize e.toNat = E at *
  generalize f.toNat = F at *
  generalize g.toNat = G at *
  generalize h.toNat = H at *
  have m1 : (B <<< 8) % 18446744073709551616 = B <<< 8 := by
    rw [Nat.shiftLeft_eq]; omega
  have m2 : (C <<< 16) % 18446744073709551616 = C <<< 16 := by
    rw [Nat.shiftLeft_eq]; omega
  have m3 : (D <<< 24) % 18446744073709551616 = D <<< 24 := by
    rw [Nat.shiftLeft_eq]; omega
  have m4 : (E <<< 32) % 18446744073709551616 = E <<< 32 := by
    rw [Nat.shiftLeft_eq]; omega
  have m5 : (F <<< 40) % 18446744073709551616 = F <<< 40 := by
    rw [Nat.shiftLeft_eq]; omega
  have m6 : (G <<< 48) % 18446744073709551616 = G <<< 48 := by
    rw [Nat.shiftLeft_eq]; omega
  have m7 : (H <<< 56) % 18446744073709551616 = H <<< 56 := by
    rw [Nat.shiftLeft_eq]; omega
  rw [m1, m2, m3, m4, m5, m6, m7]
  rw [or_shift_eq_add A B 8 (by omega)]
  rw [or_shift_eq_add _ C 16 (by omega)]
  rw [or_shift_eq_add _ D 24 (by omega)]
  rw [or_shift_eq_add _ E 32 (by omega)]
  rw [or_shift_eq_add _ F 40 (by omega)]
  rw [or_shift_eq_add _ G 48 (by omega)]
  rw [or_shift_eq_add _ H 56 (by omega)]
  omega
theorem packed_bytes (A B C D E F G H r : Nat)
    (hA : A ≤ 127) (hB : B ≤ 127) (hC : C ≤ 127) (hD : D ≤ 127) (hE : E ≤ 127)
    (hF : F ≤ 127) (hG : G ≤ 127) (hH : H ≤ 127)
    (hr : r = A + 256 * B + 65536 * C + 16777216 * D + 4294967296 * E
      + 1099511627776 * F + 281474976710656 * G + 72057594037927936 * H) :
    r < 18446744073709551616 ∧ r % 256 = A ∧ r / 256 % 256 = B ∧ r / 65536 % 256 = C ∧
      r / 16777216 % 256 = D ∧ r / 4294967296 % 256 = E ∧ r / 1099511627776 % 256 = F ∧
      r / 281474976710656 % 256 = G ∧ r / 72057594037927936 % 256 = H := by
  subst hr
  refine ⟨by omega, by omega, by omega, by omega, by omega, by omega, by omega, by omega,
    by omega⟩

/-- C11: `make_quic_conn_id` packs its eight characters little-endian: for characters with
codes 0..127 the result is a 64-bit integer whose k-th least-significant byte is the k-th
argument; the connection ID set by `quic_initial_global_initialize` is
`0x474E494E4E414353`, and the eight `dst_conn_id` bytes of every probe built with it read
'S', 'C', 'A', 'N', 'N', 'I', 'N', 'G' in wire order, whatever the other inputs are. -/
theorem make_quic_conn_id_little_endian (a b c d e f g h : Int)
    (ha : 0 ≤ a ∧ a ≤ 127) (hb : 0 ≤ b ∧ b ≤ 127) (hc : 0 ≤ c ∧ c ≤ 127)
    (hd : 0 ≤ d ∧ d ≤ 127) (he : 0 ≤ e ∧ e ≤ 127) (hf : 0 ≤ f ∧ f ≤ 127)
    (hg : 0 ≤ g ∧ g ≤ 127) (hh : 0 ≤ h ∧ h ≤ 127)
    (conf : state_conf) (gsp : Int → Int → List Nat → Nat) (buf : Buffer)
    (src_ip dst_ip : Nat) (validation : List Nat) (probe_num : Int) :
    (make_quic_conn_id a b c d e f g h < 18446744073709551616 ∧
      make_quic_conn_id a b c d e f g h % 256 = a.toNat ∧
      make_quic_conn_id a b c d e f g h / 256 % 256 = b.toNat ∧
      make_quic_conn_id a b c d e f g h / 65536 % 256 = c.toNat ∧
      make_quic_conn_id a b c d e f g h / 16777216 % 256 = d.toNat ∧
      make_quic_conn_id a b c d e f g h / 4294967296 % 256 = e.toNat ∧
      make_quic_conn_id a b c d e f g h / 1099511627776 % 256 = f.toNat ∧
      make_quic_conn_id a b c d e f g h / 281474976710656 % 256 = g.toNat ∧
      make_quic_conn_id a b c d e f g h / 72057594037927936 % 256 = h.toNat) ∧
    ( quic_initial_global_initialize conf).connection_id = 0x474E494E4E414353 ∧
    ((quic_initial_make_packet gsp ( quic_initial_global_initialize conf).num_ports
        ( quic_initial_global_initialize conf).connection_id buf src_ip dst_ip validation
        probe_num (payload + dst_conn_id_offset)).val = Char.toNat 'S' ∧
     (quic_initial_make_packet gsp ( quic_initial_global_initialize conf).num_ports
        ( quic_initial_global_initialize conf).connection_id buf src_ip dst_ip validation
        probe_num (payload + dst_conn_id_offset + 1)).val = Char.toNat 'C' ∧
     (quic_initial_make_packet gsp ( quic_initial_global_initialize conf).num_ports
        ( quic_initial_global_initialize conf).connection_id buf src_ip dst_ip validation
        probe_num (payload + dst_conn_id_offset + 2)).val = Char.toNat 'A' ∧
     (quic_initial_make_packet gsp ( quic_initial_global_initialize conf).num_ports
        ( quic_initial_global_initialize conf).connection_id buf src_ip dst_ip validation
        probe_num (payload + dst_conn_id_offset + 3)).val = Char.toNat 'N' ∧
     (quic_initial_make_packet gsp ( quic_initial_global_initialize conf).num_ports
        ( quic_initial_global_initialize conf).connection_id buf src_ip dst_ip validation
        probe_num (payload + dst_conn_id_offset + 4)).val = Char.toNat 'N' ∧
     (quic_initial_make_packet gsp ( quic_initial_global_initialize conf).num_ports
        ( quic_initial_global_initialize conf).connection_id buf src_ip dst_ip validation
        probe_num (payload + dst_conn_id_offset + 5)).val = Char.toNat 'I' ∧
     (quic_initial_make_packet gsp ( quic_initial_global_initialize conf).num_ports
        ( quic_initial_global_initialize conf).connection_id buf src_ip dst_ip validation
        probe_num (payload + dst_conn_id_offset + 6)).val = Char.toNat 'N' ∧
     (quic_initial_make_packet gsp ( quic_initial_global_initialize conf).num_ports
        ( quic_initial_global_initialize conf).connection_id buf src_ip dst_ip validation
        probe_num (payload + dst_conn_id_offset + 7)).val = Char.toNat 'G') := by
  refine ⟨?_, connection_id_value conf, ?_⟩
  · have hv := make_quic_conn_id_eq a b c d e f g h ha hb hc hd he hf hg hh
    obtain ⟨p0, p1, p2, p3, p4, p5, p6, p7, p8⟩ :=
      packed_bytes a.toNat b.toNat c.toNat d.toNat e.toNat f.toNat g.toNat h.toNat _
        (by omega) (by omega) (by omega) (by omega) (by omega) (by omega) (by omega)
        (by omega) hv
    exact ⟨p0, p1, p2, p3, p4, p5, p6, p7, p8⟩
  · obtain ⟨-, -, ⟨i48, i49, i50, i51, i52, i53, i54, i55⟩, -⟩ :=
      make_packet_bytes gsp ( quic_initial_global_initialize conf).num_ports
        ( quic_initial_global_initialize conf).connection_id buf src_ip dst_ip validation
        probe_num
    have e0 : payload + dst_conn_id_offset = 48 := rfl
    rw [e0, i48, i49, i50, i51, i52, i53, i54, i55, connection_id_value conf]
    decide

/-- Witness of C11: the characters of "SCANNING" pack to `0x474E494E4E414353`. -/
theorem make_quic_conn_id_little_endian_witness :
    ((0 : Int) ≤ 83 ∧ (83 : Int) ≤ 127) ∧
    make_quic_conn_id 83 67 65 78 78 73 78 71 < 18446744073709551616 ∧
    make_quic_conn_id 83 67 65 78 78 73 78 71 % 256 = Int.toNat 83 :=
  ⟨by decide,
   (make_quic_conn_id_little_endian 83 67 65 78 78 73 78 71 (by decide) (by decide)
      (by decide) (by decide) (by decide) (by decide) (by decide) (by decide)
      ⟨32768, 61000, 443⟩ (fun _ _ _ => 40000) (fun _ => 0) 0x04030201 0x08070605
      [1, 2, 3] 0).1.1,
   (make_quic_conn_id_little_endian 83 67 65 78 78 73 78 71 (by decide) (by decide)
      (by decide) (by decide) (by decide) (by decide) (by decide) (by decide)
      ⟨32768, 61000, 443⟩ (fun _ _ _ => 40000) (fun _ => 0) 0x04030201 0x08070605
      [1, 2, 3] 0).1.2.1⟩

/-! ## What the packet builder leaves alone -/

/-- Bytes outside the fields that `quic_initial_make_packet` writes keep their value. -/
theorem make_packet_frame (g : Int → Int → List Nat → Nat) (n : Int) (c : Nat) (b : Buffer)
    (s d : Nat) (v : List Nat) (p : Int) (j : Nat)
    (hj : j < 16 ∨ (18 ≤ j ∧ j < 24) ∨ (36 ≤ j ∧ j < 38) ∨ (40 ≤ j ∧ j < 42) ∨ 1242 ≤ j) :
    quic_initial_make_packet g n c b s d v p j = b j := by
  simp only [quic_initial_make_packet, payload, udp_header, ip_header, sizeof_ether_header,
    sizeof_ip, sizeof_udphdr, header_flags_offset, version_offset, dst_conn_id_length_offset,
    dst_conn_id_offset, src_conn_id_length_offset, token_length_offset, length_offset,
    packet_number_offset, ip_len_offset, ip_sum_offset, ip_src_offset, ip_dst_offset,
    uh_sport_offset, uh_ulen_offset, QUIC_PACKET_LENGTH, Nat.reduceAdd]
  rw [store16_out, store16_out, store16_out, store16_out, store32_out, store16_out,
    store8_out, store8_out, store64_out, store8_out, store32_out, store8_out, memset_out,
    store16_out, store32_out, store32_out]
  all_goals omega

/-- The source and destination address bytes left by `quic_initial_make_packet`. -/
theorem make_packet_addr_bytes (g : Int → Int → List Nat → Nat) (n : Int) (c : Nat)
    (b : Buffer) (s d : Nat) (v : List Nat) (p : Int) :
    ((quic_initial_make_packet g n c b s d v p 26).val = s % 256 ∧
     (quic_initial_make_packet g n c b s d v p 27).val = s / 256 % 256 ∧
     (quic_initial_make_packet g n c b s d v p 28).val = s / 65536 % 256 ∧
     (quic_initial_make_packet g n c b s d v p 29).val = s / 16777216 % 256) ∧
    ((quic_initial_make_packet g n c b s d v p 30).val = d % 256 ∧
     (quic_initial_make_packet g n c b s d v p 31).val = d / 256 % 256 ∧
     (quic_initial_make_packet g n c b s d v p 32).val = d / 65536 % 256 ∧
     (quic_initial_make_packet g n c b s d v p 33).val = d / 16777216 % 256) := by
  refine ⟨⟨?_, ?_, ?_, ?_⟩, ⟨?_, ?_, ?_, ?_⟩⟩ <;>
  simp [quic_initial_make_packet, store64, store32, store16, store8_apply, memset_apply,
    payload, udp_header, ip_header, sizeof_ether_header, sizeof_ip, sizeof_udphdr,
    header_flags_offset, version_offset, dst_conn_id_length_offset, dst_conn_id_offset,
    src_conn_id_length_offset, token_length_offset, length_offset, packet_number_offset,
    ip_len_offset, ip_sum_offset, ip_src_offset, ip_dst_offset, uh_sport_offset,
    uh_ulen_offset, byte_val, QUIC_PACKET_LENGTH, Nat.div_div_eq_div_mul]

/-- C12: `quic_initial_make_packet` leaves untouched what it is not responsible for: for
every input and prior buffer content, every byte of the 14-byte Ethernet header, of the IP
header outside `ip_len`, `ip_sum`, `ip_src`, `ip_dst` (frame bytes 14-15 and 18-23), of the
UDP destination port (36-37) and UDP checksum (40-41), and every byte past the 1242-byte
frame is the same after the call as before; `ip_src` and `ip_dst` hold the given 32-bit
`src_ip` and `dst_ip`. -/
theorem make_packet_untouched (g : Int → Int → List Nat → Nat) (n : Int) (c : Nat)
    (b : Buffer) (s d : Nat) (v : List Nat) (p : Int) (j : Nat)
    (hj : j < sizeof_ether_header ∨
      (ip_header ≤ j ∧ j < ip_header + ip_len_offset) ∨
      (ip_header + ip_len_offset + 2 ≤ j ∧ j < ip_header + ip_sum_offset) ∨
      (udp_header + uh_dport_offset ≤ j ∧ j < udp_header + uh_dport_offset + 2) ∨
      (udp_header + uh_sum_offset ≤ j ∧ j < udp_header + uh_sum_offset + 2) ∨
      sizeof_ether_header + sizeof_ip + sizeof_udphdr + QUIC_PACKET_LENGTH ≤ j) :
    quic_initial_make_packet g n c b s d v p j = b j ∧
    load32 (quic_initial_make_packet g n c b s d v p) (ip_header + ip_src_offset)
      = s % 4294967296 ∧
    load32 (quic_initial_make_packet g n c b s d v p) (ip_header + ip_dst_offset)
      = d % 4294967296 := by
  simp only [sizeof_ether_header, ip_header, ip_len_offset, ip_sum_offset, udp_header,
    sizeof_ip, uh_dport_offset, uh_sum_offset, sizeof_udphdr, QUIC_PACKET_LENGTH,
    Nat.reduceAdd] at hj
  obtain ⟨⟨s0, s1, s2, s3⟩, ⟨d0, d1, d2, d3⟩⟩ := make_packet_addr_bytes g n c b s d v p
  have e1 : ip_header + ip_src_offset = 26 := rfl
  have e2 : ip_header + ip_dst_offset = 30 := rfl
  refine ⟨make_packet_frame g n c b s d v p j (by omega), ?_, ?_⟩
  · rw [e1]
    simp only [load32, load16, Nat.reduceAdd]
    rw [s0, s1, s2, s3]
    omega
  · rw [e2]
    simp only [load32, load16, Nat.reduceAdd]
    rw [d0, d1, d2, d3]
    omega

/-- Witness of C12: the first byte of the Ethernet header of a frame that held `0xAB`
everywhere is still `0xAB` after the call. -/
theorem make_packet_untouched_witness :
    (0 < sizeof_ether_header) ∧
    quic_initial_make_packet (fun _ _ _ => 40000) 28233 0x474E494E4E414353 (fun _ => 0xAB)
      0x04030201 0x08070605 [1, 2, 3] 0 0 = 0xAB :=
  ⟨by decide,
   (make_packet_untouched (fun _ _ _ => 40000) 28233 0x474E494E4E414353 (fun _ => 0xAB)
      0x04030201 0x08070605 [1, 2, 3] 0 0 (Or.inl (by decide))).1⟩

/-! ## The response parser: claims -/

/-- C13 as stated fails: for the frame that `quic_initial_make_packet` builds (an echo of
the probe, whose destination-connection-ID field equals the module's connection ID),
`quic_initial_process_packet` does not add `classification="quic"` and `success=1`; the
field set comes back as it went in. -/
theorem process_packet_conn_id_match_counterexample :
    load64 (quic_initial_make_packet (fun _ _ _ => 40000) 28233 0x474E494E4E414353
        (fun _ => 0) 0x04030201 0x08070605 [1, 2, 3] 0) (payload + dst_conn_id_offset)
      = 0x474E494E4E414353 ∧
    ¬ (field.mk "classification" (field_val.str "quic") ∈
        quic_initial_process_packet
          (quic_initial_make_packet (fun _ _ _ => 40000) 28233 0x474E494E4E414353
            (fun _ => 0) 0x04030201 0x08070605 [1, 2, 3] 0) 1242 sample_fieldset
          [1, 2, 3] ∧
      field.mk "success" (field_val.uint64 1) ∈
        quic_initial_process_packet
          (quic_initial_make_packet (fun _ _ _ => 40000) 28233 0x474E494E4E414353
            (fun _ => 0) 0x04030201 0x08070605 [1, 2, 3] 0) 1242 sample_fieldset
          [1, 2, 3]) := by
  decide

/-- C13, amended: for every payload, in particular one whose destination-connection-ID
field equals the module's connection ID, `quic_initial_process_packet` adds neither a
`classification` nor a `success` field: a field of either name is in the field set after
the call exactly when it was there before. -/
theorem process_packet_no_classification (packet : Buffer) (len : Nat) (fs : fieldset)
    (validation : List Nat) (v : field_val) :
    (field.mk "classification" v ∈ quic_initial_process_packet packet len fs validation ↔
      field.mk "classification" v ∈ fs) ∧
    (field.mk "success" v ∈ quic_initial_process_packet packet len fs validation ↔
      field.mk "success" v ∈ fs) :=
  ⟨Iff.rfl, Iff.rfl⟩

/-- C14 as stated fails: for a version-negotiation response that carries two version tags
(`(23 - 15) / 4 = 2`), neither of them the probe's own tag, the field set that
`quic_initial_process_packet` leaves has no `versions` field. -/
theorem process_packet_versions_counterexample :
    (wire32 sample_version_negotiation_frame (payload + version_offset) = 0 ∧
     (23 - 15) / 4 = 2 ∧
     wire32 sample_version_negotiation_frame (payload + 15)
       ≠ QUIC_VERSION_FORCE_NEGOTIATION ∧
     wire32 sample_version_negotiation_frame (payload + 19)
       ≠ QUIC_VERSION_FORCE_NEGOTIATION) ∧
    ∀ f ∈ quic_initial_process_packet sample_version_negotiation_frame 65 sample_fieldset
        [1, 2, 3], f.name ≠ "versions" := by
  decide

/-- C14, amended: for every payload, in particular a version-negotiation payload with
N > 0 foreign version tags, `quic_initial_process_packet` adds no `versions` field and
does not set `info`: a field of either name is in the field set after the call exactly
when it was there before, and the field set has as many fields as before. -/
theorem process_packet_no_versions (packet : Buffer) (len : Nat) (fs : fieldset)
    (validation : List Nat) (v : field_val) :
    (field.mk "versions" v ∈ quic_initial_process_packet packet len fs validation ↔
      field.mk "versions" v ∈ fs) ∧
    (field.mk "info" v ∈ quic_initial_process_packet packet len fs validation ↔
      field.mk "info" v ∈ fs) ∧
    (quic_initial_process_packet packet len fs validation).length = fs.length :=
  ⟨Iff.rfl, Iff.rfl, rfl⟩

/-- C15 as stated fails: for a version-negotiation response whose first version tag is
the probe's own tag `0x1a1a1a1a`, the field set that `quic_initial_process_packet` leaves
does not hold `classification="udp"` and `success=0`. -/
theorem process_packet_echo_counterexample :
    (wire32 sample_version_echo_frame (payload + version_offset) = 0 ∧
     wire32 sample_version_echo_frame (payload + 15) = QUIC_VERSION_FORCE_NEGOTIATION) ∧
    ¬ (field.mk "classification" (field_val.str "udp") ∈
        quic_initial_process_packet sample_version_echo_frame 61 sample_fieldset [1, 2, 3] ∧
      field.mk "success" (field_val.uint64 0) ∈
        quic_initial_process_packet sample_version_echo_frame 61 sample_fieldset
          [1, 2, 3]) := by
  decide

/-- C15, amended: for every payload, in particular a version-negotiation payload whose
first version tag equals the probe's own tag, `quic_initial_process_packet` adds no
`versions` field and sets neither `classification` nor `success`: the fields of these
three names, and the names of all fields, are those that were there before. -/
theorem process_packet_echo_unchanged (packet : Buffer) (len : Nat) (fs : fieldset)
    (validation : List Nat) :
    (quic_initial_process_packet packet len fs validation).filter
        (fun f => f.name = "classification" ∨ f.name = "success" ∨ f.name = "versions")
      = fs.filter
        (fun f => f.name = "classification" ∨ f.name = "success" ∨ f.name = "versions") ∧
    (quic_initial_process_packet packet len fs validation).map field.name
      = fs.map field.name :=
  ⟨rfl, rfl⟩

/-- C16: for every payload and every captured length, in particular for a payload shorter
than a QUIC header and for the empty payload, `quic_initial_process_packet` returns the
field set unchanged: no field is added or modified; the function has no other result
through which an error could be signalled. -/
theorem process_packet_short_unchanged (packet : Buffer) (len : Nat) (fs : fieldset)
    (validation : List Nat) :
    quic_initial_process_packet packet len fs validation = fs ∧
    quic_initial_process_packet packet 0 fs validation = fs :=
  ⟨rfl, rfl⟩

/-! ## The packet filter -/

theorem cstring_append_nul (l r : List Nat) (h : ∀ x ∈ l, x ≠ 0) :
    cstring (l ++ 0 :: r) = l := by
  induction l with
  | nil => simp [cstring]
  | cons a t ih =>
    have ha : a ≠ 0 := h a (List.mem_cons_self a t)
    have ht : ∀ x ∈ t, x ≠ 0 := fun x hx => h x (List.mem_cons_of_mem a hx)
    have := ih ht
    unfold cstring at this ⊢
    rw [List.cons_append, List.takeWhile_cons, if_pos (by simpa using ha), this]

theorem digitChar_toNat_ne_zero : ∀ d, d < 10 → (Nat.digitChar d).toNat ≠ 0 := by
  decide

theorem toDigitsCore_toNat_ne_zero (fuel : Nat) : ∀ (n : Nat) (acc : List Char),
    (∀ ch ∈ acc, ch.toNat ≠ 0) → ∀ ch ∈ Nat.toDigitsCore 10 fuel n acc, ch.toNat ≠ 0 := by
  induction fuel with
  | zero => intro n acc hacc; simpa [Nat.toDigitsCore] using hacc
  | succ k ih =>
    intro n acc hacc
    have hd : (Nat.digitChar (n % 10)).toNat ≠ 0 :=
      digitChar_toNat_ne_zero (n % 10) (Nat.mod_lt n (by decide))
    have hacc2 : ∀ ch ∈ Nat.digitChar (n % 10) :: acc, ch.toNat ≠ 0 := by
      intro ch hch
      rcases List.mem_cons.mp hch with h | h
      · rw [h]; exact hd
      · exact hacc ch h
    simp only [Nat.toDigitsCore]
    split_ifs
    · exact hacc2
    · exact ih _ _ hacc2

theorem decimal_ne_zero (p : Nat) : ∀ x ∈ (Nat.toDigits 10 p).map Char.toNat, x ≠ 0 := by
  intro x hx
  obtain ⟨ch, hch, rfl⟩ := List.mem_map.mp hx
  exact toDigitsCore_toNat_ne_zero _ _ [] (by simp) ch hch

theorem decimal_length (p : Nat) (hp : p ≤ 65535) :
    ((Nat.toDigits 10 p).map Char.toNat).length ≤ 5 := by
  have h := Nat.repr_length p 5 (by decide) (by omega)
  simpa [Nat.repr, String.length, List.asString] using h

/-- The content of `filter_rule` after initialisation, written out. -/
theorem global_initialize_filter_rule_eq (fr : List Nat) (conf : state_conf)
    (hp : conf.target_port ≤ 65535) :
    global_initialize_filter_rule fr conf =
      [117, 100, 112, 32, 115, 114, 99, 32, 112, 111, 114, 116, 32] ++
        (Nat.toDigits 10 conf.target_port).map Char.toNat ++ [0] ++
        fr.drop (14 + ((Nat.toDigits 10 conf.target_port).map Char.toNat).length) := by
  have hne := decimal_ne_zero conf.target_port
  have hl := decimal_length conf.target_port hp
  simp only [global_initialize_filter_rule, strncat, sprintf_d]
  generalize (Nat.toDigits 10 conf.target_port).map Char.toNat = ds at hne hl ⊢
  have hm : memcpy fr udp_src_port_literal 14 =
      [117, 100, 112, 32, 115, 114, 99, 32, 112, 111, 114, 116, 32] ++ 0 :: fr.drop 14 := rfl
  have hc1 : cstring ([117, 100, 112, 32, 115, 114, 99, 32, 112, 111, 114, 116, 32] ++
      0 :: fr.drop 14) = [117, 100, 112, 32, 115, 114, 99, 32, 112, 111, 114, 116, 32] :=
    cstring_append_nul _ _ (by decide)
  have hc2 : cstring (ds ++ [0]) = ds := cstring_append_nul ds [] hne
  have ht : List.take 16 ds = ds := List.take_of_length_le (by omega)
  rw [hm, hc1, hc2, ht]
  have h13 : ([117, 100, 112, 32, 115, 114, 99, 32, 112, 111, 114, 116, 32] : List Nat).length
      = 13 := rfl
  rw [h13, List.take_left' h13]
  have hd : List.drop (13 + ds.length + 1)
      ([117, 100, 112, 32, 115, 114, 99, 32, 112, 111, 114, 116, 32] ++ 0 :: fr.drop 14)
      = fr.drop (14 + ds.length) := by
    have e : (13 + ds.length + 1) = 14 + ds.length := by omega
    rw [e]
    rw [← List.drop_drop]
    show List.drop ds.length (List.drop 14 fr) = _
    rw [List.drop_drop]
  rw [hd]

/-- C17: for every configured target port p in 0..65535 and every prior content of the
30-byte array `filter_rule`, after `quic_initial_global_initialize` the packet filter is
exactly the string "udp src port " followed by the decimal rendering of p; the string and
its terminator take at most 19 of the 30 bytes, the array keeps its 30 bytes, and calling
the initialisation again with the same configuration leaves the same array content, hence
the same string. -/
theorem global_initialize_filter_string (fr : List Nat) (conf : state_conf)
    (hlen : fr.length = 30) (hp : conf.target_port ≤ 65535) :
    cstring (global_initialize_filter_rule fr conf) =
      ("udp src port " ++ Nat.repr conf.target_port).toList.map Char.toNat ∧
    (cstring (global_initialize_filter_rule fr conf)).length + 1 ≤ 19 ∧
    (global_initialize_filter_rule fr conf).length = 30 ∧
    global_initialize_filter_rule (global_initialize_filter_rule fr conf) conf =
      global_initialize_filter_rule fr conf := by
  have hne := decimal_ne_zero conf.target_port
  have hl := decimal_length conf.target_port hp
  have h1 := global_initialize_filter_rule_eq fr conf hp
  have h2 := global_initialize_filter_rule_eq (global_initialize_filter_rule fr conf) conf hp
  have hs : ("udp src port " ++ Nat.repr conf.target_port).toList.map Char.toNat =
      [117, 100, 112, 32, 115, 114, 99, 32, 112, 111, 114, 116, 32] ++
        (Nat.toDigits 10 conf.target_port).map Char.toNat := by
    simp only [String.toList, String.data_append, List.map_append, Nat.repr, List.asString]
    rfl
  rw [hs]
  generalize (Nat.toDigits 10 conf.target_port).map Char.toNat = ds at *
  have hc : cstring (global_initialize_filter_rule fr conf) =
      [117, 100, 112, 32, 115, 114, 99, 32, 112, 111, 114, 116, 32] ++ ds := by
    rw [h1, List.append_assoc]
    refine cstring_append_nul _ _ ?_
    intro x hx
    rcases List.mem_append.mp hx with h | h
    · have hpre : ∀ y ∈ ([117, 100, 112, 32, 115, 114, 99, 32, 112, 111, 114, 116, 32] :
          List Nat), y ≠ 0 := by decide
      exact hpre x h
    · exact hne x h
  refine ⟨hc, ?_, ?_, ?_⟩
  · rw [hc]
    simp only [List.length_append, List.length_cons, List.length_nil]
    omega
  · rw [h1]
    simp only [List.length_append, List.length_cons, List.length_nil, List.length_drop, hlen]
    omega
  · rw [h2]
    have hdrop : List.drop (14 + ds.length) (global_initialize_filter_rule fr conf)
        = List.drop (14 + ds.length) fr := by
      rw [h1]
      have hpre : (([117, 100, 112, 32, 115, 114, 99, 32, 112, 111, 114, 116, 32] : List Nat)
          ++ ds ++ [0]).length = 14 + ds.length := by
        simp only [List.length_append, List.length_cons, List.length_nil]
        omega
      rw [← hpre, List.drop_left]
    rw [hdrop, h1]

/-- Witness of C17: target port 443 on the zero-initialised array gives "udp src port 443". -/
theorem global_initialize_filter_string_witness :
    (filter_rule_initial.length = 30 ∧ (443 : Nat) ≤ 65535) ∧
    cstring (global_initialize_filter_rule filter_rule_initial ⟨32768, 61000, 443⟩) =
      ("udp src port " ++ Nat.repr 443).toList.map Char.toNat :=
  ⟨by decide,
   (global_initialize_filter_string filter_rule_initial ⟨32768, 61000, 443⟩ (by decide)
      (by decide)).1⟩

/-! ## The validator never over-rejects -/

theorem bytes_injective (x0 x1 x2 x3 y0 y1 y2 y3 : Nat)
    (b1 : x1 < 256) (b2 : x2 < 256) (b3 : x3 < 256)
    (c1 : y1 < 256) (c2 : y2 < 256) (c3 : y3 < 256)
    (h : x0 * 16777216 + x1 * 65536 + x2 * 256 + x3
      = y0 * 16777216 + y1 * 65536 + y2 * 256 + y3) :
    x0 = y0 ∧ x1 = y1 ∧ x2 = y2 ∧ x3 = y3 := by
  omega

/-- On 32-bit values `ntohl` is injective: distinct addresses have distinct bits. -/
theorem ntohl_injective (x y : Nat) (hx : x < 4294967296) (hy : y < 4294967296)
    (h : ntohl x = ntohl y) : x = y := by
  unfold ntohl at h
  obtain ⟨e0, e1, e2, e3⟩ := bytes_injective _ _ _ _ _ _ _ _
    (Nat.mod_lt _ (by decide)) (Nat.mod_lt _ (by decide))
    (Nat.mod_lt _ (by decide)) (Nat.mod_lt _ (by decide)) (Nat.mod_lt _ (by decide))
    (Nat.mod_lt _ (by decide)) h
  have dx : x = x % 256 + 256 * (x / 256 % 256) + 65536 * (x / 65536 % 256)
      + 16777216 * (x / 16777216 % 256) := by omega
  have dy : y = y % 256 + 256 * (y / 256 % 256) + 65536 * (y / 65536 % 256)
      + 16777216 * (y / 16777216 % 256) := by omega
  rw [dx, dy, e0, e1, e2, e3]

theorem validate_results_accept_of_clear (calls : List ValidateCall) :
    ∀ (bm : Bitmap) (j : Nat) (cj : ValidateCall), calls[j]? = some cj →
      cj.ip_hdr.ip_p = IPPROTO_UDP → 4 * cj.ip_hdr.ip_hl + sizeof_udphdr ≤ cj.len →
      pbm_check bm (ntohl cj.ip_hdr.ip_src) = false →
      (∀ (i : Nat) (ci : ValidateCall), i < j → calls[i]? = some ci →
        ntohl ci.ip_hdr.ip_src = ntohl cj.ip_hdr.ip_src →
        (validate_results bm calls)[i]? ≠ some 1) →
      (validate_results bm calls)[j]? = some 1 := by
  induction calls with
  | nil => intro bm j cj hj; simp at hj
  | cons c cs ih =>
    intro bm j cj hj hudp hlen hclear hprev
    cases j with
    | zero =>
      simp only [List.getElem?_cons_zero, Option.some.injEq] at hj
      subst hj
      simp only [validate_results, List.getElem?_cons_zero, Option.some.injEq]
      rw [validate_unfold, if_pos ⟨hudp, hlen, hclear⟩]
    | succ k =>
      simp only [List.getElem?_cons_succ] at hj
      simp only [validate_results, List.getElem?_cons_succ]
      apply ih _ k cj hj hudp hlen
      · have h0 := hprev 0 c (Nat.succ_pos k) (by simp)
        simp only [validate_results, List.getElem?_cons_zero, ne_eq, Option.some.injEq] at h0
        rw [validate_unfold] at h0 ⊢
        split_ifs at h0 ⊢ with hc
        · have hne : ntohl c.ip_hdr.ip_src ≠ ntohl cj.ip_hdr.ip_src := fun e => h0 e rfl
          rw [pbm_check_set, hclear]
          simp [hne]
        · exact hclear
      · intro i ci hi hci hsrc
        have := hprev (i + 1) ci (Nat.succ_lt_succ hi) (by simpa using hci) hsrc
        simpa only [validate_results, List.getElem?_cons_succ] using this

/-- C18: the validator never over-rejects: in every sequence of calls that starts from the
empty bitmap (source addresses being 32-bit values), a call whose header is UDP with
captured length at least `4*ip_hl + 8` is accepted whenever no earlier call with the same
source address was accepted; earlier accepted calls from other addresses and earlier
rejected calls from the same address do not take its slot. -/
theorem validate_never_over_rejects (calls : List ValidateCall) (j : Nat)
    (cj : ValidateCall)
    (hwf : ∀ c ∈ calls, c.ip_hdr.ip_src < 4294967296)
    (hj : calls[j]? = some cj)
    (hudp : cj.ip_hdr.ip_p = IPPROTO_UDP)
    (hlen : 4 * cj.ip_hdr.ip_hl + 8 ≤ cj.len)
    (hprev : ∀ (i : Nat) (ci : ValidateCall), i < j → calls[i]? = some ci →
      ci.ip_hdr.ip_src = cj.ip_hdr.ip_src →
      (validate_results pbm_init calls)[i]? ≠ some 1) :
    (validate_results pbm_init calls)[j]? = some 1 := by
  apply validate_results_accept_of_clear calls pbm_init j cj hj hudp hlen
  · simp [pbm_check, pbm_init]
  · intro i ci hi hci hsrc
    have wi := hwf ci (List.getElem?_mem hci)
    have wj := hwf cj (List.getElem?_mem hj)
    exact hprev i ci hi hci (ntohl_injective _ _ wi wj hsrc)

/-- Witness of C18: after a rejected TCP packet from a source, an accepted packet from
another source and a rejected truncated packet from the first source, the first
well-formed UDP packet of the first source is accepted. -/
theorem validate_never_over_rejects_witness :
    (validate_results pbm_init
      [⟨⟨5, 4, 0, 0, 0, 0, 64, 6, 0, 0x05000000, 0⟩, 100⟩,
       ⟨⟨5, 4, 0, 0, 0, 0, 64, 17, 0, 0x07000000, 0⟩, 100⟩,
       ⟨⟨5, 4, 0, 0, 0, 0, 64, 17, 0, 0x05000000, 0⟩, 27⟩,
       ⟨⟨5, 4, 0, 0, 0, 0, 64, 17, 0, 0x05000000, 0⟩, 28⟩]) = [0, 1, 0, 1] ∧
    (validate_results pbm_init
      [⟨⟨5, 4, 0, 0, 0, 0, 64, 6, 0, 0x05000000, 0⟩, 100⟩,
       ⟨⟨5, 4, 0, 0, 0, 0, 64, 17, 0, 0x07000000, 0⟩, 100⟩,
       ⟨⟨5, 4, 0, 0, 0, 0, 64, 17, 0, 0x05000000, 0⟩, 27⟩,
       ⟨⟨5, 4, 0, 0, 0, 0, 64, 17, 0, 0x05000000, 0⟩, 28⟩])[3]? = some 1 :=
  ⟨by decide,
   validate_never_over_rejects _ 3 ⟨⟨5, 4, 0, 0, 0, 0, 64, 17, 0, 0x05000000, 0⟩, 28⟩
     (by decide) rfl rfl (by decide)
     (by
       intro i ci hi hci _
       interval_cases i
       · decide
       · simp only [List.getElem?_cons_succ, List.getElem?_cons_zero,
           Option.some.injEq] at hci
         subst hci
         rename_i hsrc
         exact absurd hsrc (by decide)
       · decide)⟩

/-! ## Idempotence of the packet builder -/

theorem store8_congr (x y : Buffer) (a v j : Nat) (h : x j = y j) :
    store8 x a v j = store8 y a v j := by
  simp only [store8_apply, h]

theorem store16_congr (x y : Buffer) (a v j : Nat) (h : x j = y j) :
    store16 x a v j = store16 y a v j := by
  unfold store16
  exact store8_congr _ _ _ _ _ (store8_congr _ _ _ _ _ h)

theorem store32_congr (x y : Buffer) (a v j : Nat) (h : x j = y j) :
    store32 x a v j = store32 y a v j := by
  unfold store32
  exact store16_congr _ _ _ _ _ (store16_congr _ _ _ _ _ h)

theorem store64_congr (x y : Buffer) (a v j : Nat) (h : x j = y j) :
    store64 x a v j = store64 y a v j := by
  unfold store64
  exact store32_congr _ _ _ _ _ (store32_congr _ _ _ _ _ h)

theorem memset_congr (x y : Buffer) (a c n j : Nat) (h : x j = y j) :
    memset x a c n j = memset y a c n j := by
  simp only [memset_apply, h]

theorem store16_in_indep (x y : Buffer) (a v j : Nat) (h : a ≤ j ∧ j < a + 2) :
    store16 x a v j = store16 y a v j := by
  have hj : j = a ∨ j = a + 1 := by omega
  simp only [store16, store8_apply]
  rcases hj with e | e
  · subst e; simp
  · subst e; simp

theorem store32_in_indep (x y : Buffer) (a v j : Nat) (h : a ≤ j ∧ j < a + 4) :
    store32 x a v j = store32 y a v j := by
  unfold store32
  by_cases h2 : a + 2 ≤ j
  · exact store16_in_indep _ _ _ _ _ (by omega)
  · exact store16_congr _ _ _ _ _ (store16_in_indep _ _ _ _ _ (by omega))

theorem memset_in_indep (x y : Buffer) (a c n j : Nat) (h : a ≤ j ∧ j < a + n) :
    memset x a c n j = memset y a c n j := by
  rw [memset_in _ _ _ _ _ h, memset_in _ _ _ _ _ h]

theorem sum_words_congr (x y : Buffer) : ∀ (n a : Nat),
    (∀ k, a ≤ k → k < a + 2 * n → x k = y k) → sum_words x a n = sum_words y a n := by
  intro n
  induction n with
  | zero => intro a _; rfl
  | succ m ih =>
    intro a h
    simp only [sum_words, load16]
    rw [h a (by omega) (by omega), h (a + 1) (by omega) (by omega),
      ih (a + 2) (fun k h1 h2 => h k (by omega) (by omega))]

theorem make_packet_eq_store_checksum (g : Int → Int → List Nat → Nat) (n : Int) (c : Nat)
    (b : Buffer) (s d : Nat) (v : List Nat) (p : Int) :
    quic_initial_make_packet g n c b s d v p =
      store16 (make_packet_before_checksum g n c b s d v p) (ip_header + ip_sum_offset)
        (zmap_ip_checksum (make_packet_before_checksum g n c b s d v p) ip_header) :=
  rfl

/-- The buffer before the checksum store depends on the prior buffer only through the
bytes that the builder does not write. -/
theorem make_packet_before_checksum_congr (g : Int → Int → List Nat → Nat) (n : Int)
    (c : Nat) (x y : Buffer) (s d : Nat) (v : List Nat) (p : Int)
    (hxy : ∀ k, (k < 16 ∨ (18 ≤ k ∧ k < 24) ∨ (36 ≤ k ∧ k < 38) ∨ (40 ≤ k ∧ k < 42) ∨
      1242 ≤ k) → x k = y k) (j : Nat) :
    make_packet_before_checksum g n c x s d v p j
      = make_packet_before_checksum g n c y s d v p j := by
  simp only [make_packet_before_checksum, payload, udp_header, ip_header,
    sizeof_ether_header, sizeof_ip, sizeof_udphdr, header_flags_offset, version_offset,
    dst_conn_id_length_offset, dst_conn_id_offset, src_conn_id_length_offset,
    token_length_offset, length_offset, packet_number_offset, ip_len_offset, ip_sum_offset,
    ip_src_offset, ip_dst_offset, uh_sport_offset, uh_ulen_offset, QUIC_PACKET_LENGTH,
    Nat.reduceAdd]
  have hcases : j < 16 ∨ (16 ≤ j ∧ j < 18) ∨ (18 ≤ j ∧ j < 24) ∨ (24 ≤ j ∧ j < 26) ∨
      (26 ≤ j ∧ j < 30) ∨ (30 ≤ j ∧ j < 34) ∨ (34 ≤ j ∧ j < 36) ∨ (36 ≤ j ∧ j < 38) ∨
      (38 ≤ j ∧ j < 40) ∨ (40 ≤ j ∧ j < 42) ∨ (42 ≤ j ∧ j < 1242) ∨ 1242 ≤ j := by omega
  rcases hcases with h | h | h | h | h | h | h | h | h | h | h | h <;>
  repeat (first
    | exact hxy j (by omega)
    | exact store16_in_indep _ _ _ _ _ (by omega)
    | exact store32_in_indep _ _ _ _ _ (by omega)
    | exact memset_in_indep _ _ _ _ _ _ (by omega)
    | apply store16_congr
    | apply store32_congr
    | apply store64_congr
    | apply store8_congr
    | apply memset_congr)

/-- The frame that the builder leaves depends on the prior buffer only through the bytes
that the builder does not write. -/
theorem make_packet_congr (g : Int → Int → List Nat → Nat) (n : Int) (c : Nat)
    (x y : Buffer) (s d : Nat) (v : List Nat) (p : Int)
    (hxy : ∀ k, (k < 16 ∨ (18 ≤ k ∧ k < 24) ∨ (36 ≤ k ∧ k < 38) ∨ (40 ≤ k ∧ k < 42) ∨
      1242 ≤ k) → x k = y k) :
    quic_initial_make_packet g n c x s d v p = quic_initial_make_packet g n c y s d v p := by
  have hq : make_packet_before_checksum g n c x s d v p
      = make_packet_before_checksum g n c y s d v p :=
    funext (make_packet_before_checksum_congr g n c x y s d v p hxy)
  rw [make_packet_eq_store_checksum, make_packet_eq_store_checksum, hq]

/-- C19: `quic_initial_make_packet` is idempotent on the frame buffer: for every buffer
content and every input, calling it twice in a row with the same arguments leaves exactly
the buffer that one call leaves; and the result does not depend on the payload bytes or
the IP checksum bytes found in the buffer: overwriting them beforehand with arbitrary
bytes gives the same frame. -/
theorem make_packet_idempotent (g : Int → Int → List Nat → Nat) (n : Int) (c : Nat)
    (b : Buffer) (s d : Nat) (v : List Nat) (p : Int) :
    quic_initial_make_packet g n c (quic_initial_make_packet g n c b s d v p) s d v p
      = quic_initial_make_packet g n c b s d v p ∧
    ∀ junk : Buffer,
      quic_initial_make_packet g n c
          (fun k => if (payload ≤ k ∧ k < payload + QUIC_PACKET_LENGTH) ∨
              (ip_header + ip_sum_offset ≤ k ∧ k < ip_header + ip_sum_offset + 2)
            then junk k else b k) s d v p
        = quic_initial_make_packet g n c b s d v p := by
  refine ⟨?_, ?_⟩
  · exact make_packet_congr g n c _ b s d v p
      (fun k hk => make_packet_frame g n c b s d v p k hk)
  · intro junk
    apply make_packet_congr
    intro k hk
    have hp : payload = 42 := rfl
    have hi : ip_header + ip_sum_offset = 24 := rfl
    have hl : QUIC_PACKET_LENGTH = 1200 := rfl
    rw [hp, hi, hl]
    have hneg : ¬ ((42 ≤ k ∧ k < 42 + 1200) ∨ (24 ≤ k ∧ k < 24 + 2)) := by omega
    simp only [hneg, if_false]

end QuicInitial
